import Mathlib

/-!
# Verification of the py-trinnov-altitude core

Shallow embedding of the protocol parser (`trinnov_altitude/protocol.py`),
the canonical normalizer (`trinnov_altitude/normalizer.py`), the state
reducer (`trinnov_altitude/state.py`) and the relevant pieces of the client
engine (`trinnov_altitude/client.py`), together with proofs about them.

Modelling conventions:
* Python `int` becomes `Int` (`Nat` where the source can only produce
  non-negative values is still kept as `Int` to mirror Python typing).
* Python `float` values produced by parsing decimal literals become `Rat`;
  the source only ever stores and compares these values, so the exact
  decimal value is the faithful abstraction.
* Python `dict[int, str]` becomes an insertion-ordered association list;
  `d[k] = v` overwrites in place when the key exists and appends otherwise,
  exactly like CPython dicts.
* Python `str` becomes `String`; regular expressions are embedded as
  executable recognizers over `List Char`, faithful to Python `re`
  semantics on the ASCII fragment (in particular: `.` does not match a
  newline, `\s` matches ASCII whitespace including newline, and a final
  `$` also matches just before a single trailing newline).
* Raising an exception becomes returning `Except`.
-/

namespace Trinnov

/-! ## Messages (`trinnov_altitude/protocol.py`)

One constructor per `@dataclass` message variant.  The variants
`metaPresetLoaded`, `idents` and `sourcesChanged`, the `origin` field of
`source`, are referenced by `normalizer.py` and by the test-suite but their
declarations are missing from the copy of `protocol.py` under `src/`; they
are modelled from the spec (§3: catalog-entry messages for sources carry an
origin tag; §4.2: an ambiguous preset-loaded message; meta events). -/

inductive Message where
  | audiosync (mode : String)
  | audiosyncStatus (synchronized : Bool)
  | bypass (state : Bool)
  | currentPreset (index : Int)
  | currentSourceFormat (format : String)
  | currentSource (index : Int)
  | decoder (nonaudio playable : Bool) (decoder upmixer : String)
  | dim (state : Bool)
  | error (error : String)
  | bye
  | mute (state : Bool)
  | ok
  | preset (index : Int) (name : String)
  | presetsClear
  | samplingRate (rate : Int)
  | source (index : Int) (name : String) (origin : String)
  | sourcesClear
  | speakerInfo (speaker_number : Int) (radius theta phi : Rat)
  | startRunning
  | unknown (raw_message : String)
  | volume (volume : Rat)
  | welcome (version id : String)
  | metaPresetLoaded (index : Int)
  | idents (features : List String)
  | sourcesChanged
deriving DecidableEq, Repr

/-! ## The protocol parser (`trinnov_altitude/protocol.py`)

Each entry of `PARSER_RULES` is a compiled regular expression that is fully
anchored (`^...$`) and tried with `re.Pattern.match`.  The rules are
embedded as executable recognizers over `List Char`, one per rule, faithful
to Python `re` semantics on the ASCII fragment:

* `\d` is `0`–`9`; `\s` is ASCII whitespace (including `\n`); `.` matches
  anything except `\n`; `\S` is the complement of `\s`;
* a final `$` matches at the end of the input or just before one trailing
  `\n` (the `anch` combinator below tries the whole input, then the input
  without a single trailing newline);
* greedy groups with backtracking: for these rules the accepted split is
  unique except for the two `(.*)` groups of the `DECODER` rule, where
  greediness of the first group selects the last occurrence of
  `" UPMIXER "` (`splitLastInfix`). -/

/-- Python `\d` (ASCII). -/
def isDigitCh (c : Char) : Bool := '0' ≤ c && c ≤ '9'

/-- Python `\s` (ASCII): space, tab, newline, carriage return, vertical
tab, form feed. -/
def isSpaceCh (c : Char) : Bool :=
  c = ' ' || c = '\t' || c = '\n' || c = '\r' || c = '\x0b' || c = '\x0c'

/-- Match a literal sequence of characters, returning the rest of the
input. -/
def litP : List Char → List Char → Option (List Char)
  | [], l => some l
  | _ :: _, [] => none
  | p :: ps, c :: cs => if c = p then litP ps cs else none

/-- Consume one `\s` character. -/
def spaceThen (l : List Char) : Option (List Char) :=
  match l with
  | [] => none
  | c :: rest => if isSpaceCh c then some rest else none

/-- Python `int(...)` of a non-empty digit string. -/
def digitsToNat (ds : List Char) : Nat :=
  ds.foldl (fun a c => a * 10 + (c.toNat - 48)) 0

/-- Match `(-?\d+)` against the whole remaining input and convert with
`int`. -/
def intAll (l : List Char) : Option Int :=
  match l with
  | [] => none
  | c :: rest =>
      if c = '-' then
        if rest ≠ [] ∧ rest.all isDigitCh then some (-(digitsToNat rest : Int))
        else none
      else if (c :: rest).all isDigitCh then some (digitsToNat (c :: rest))
      else none

/-- Match `(\d+)` against the whole remaining input and convert with
`int`. -/
def natAll (l : List Char) : Option Int :=
  if l ≠ [] ∧ l.all isDigitCh then some (digitsToNat l) else none

/-- Match a greedy `(-?\d+)` group mid-line, returning its `int` value and
the rest. -/
def intTok (l : List Char) : Option (Int × List Char) :=
  match l with
  | [] => none
  | c :: rest =>
      if c = '-' then
        let ds := rest.takeWhile isDigitCh
        if ds = [] then none
        else some (-(digitsToNat ds : Int), rest.dropWhile isDigitCh)
      else
        let ds := (c :: rest).takeWhile isDigitCh
        if ds = [] then none
        else some ((digitsToNat ds : Int), (c :: rest).dropWhile isDigitCh)

/-- Match a greedy `(\d+)` group mid-line, returning the digit run's value
and the rest. -/
def natTok (l : List Char) : Option (Nat × List Char) :=
  let ds := l.takeWhile isDigitCh
  if ds = [] then none else some (digitsToNat ds, l.dropWhile isDigitCh)

/-- The value of a fractional digit run (`float("0." ++ ds)`), exactly. -/
def fracVal (ds : List Char) : Rat :=
  (digitsToNat ds : Rat) / (10 : Rat) ^ ds.length

/-- Match a greedy `(-?\d+(?:\.\d+)?)` group mid-line and convert with
`float` (modelled exactly as a rational). -/
def decCore (l : List Char) : Option (Rat × List Char) :=
  let ds := l.takeWhile isDigitCh
  let rest := l.dropWhile isDigitCh
  if ds = [] then none
  else
    match rest with
    | '.' :: r2 =>
        let fs := r2.takeWhile isDigitCh
        if fs = [] then some ((digitsToNat ds : Rat), rest)
        else some ((digitsToNat ds : Rat) + fracVal fs, r2.dropWhile isDigitCh)
    | _ => some ((digitsToNat ds : Rat), rest)

/-- Signed variant of `decCore` (the leading `-?`). -/
def decTok (l : List Char) : Option (Rat × List Char) :=
  match l with
  | [] => none
  | c :: rest =>
      if c = '-' then (decCore rest).map (fun p => (-p.1, p.2))
      else decCore (c :: rest)

/-- Match a final `(.*)` group: the rest of the line, which must be
newline-free (`.` does not match `\n`). -/
def dotAll (l : List Char) : Option String :=
  if l.all (fun c => c ≠ '\n') then some ⟨l⟩ else none

/-- Split `l` as `a ++ sep ++ b` at the *last* occurrence of `sep` (the
split a greedy leading `(.*)` group selects). -/
def splitLastInfix (sep : List Char) : List Char → Option (List Char × List Char)
  | [] => none
  | c :: rest =>
      match splitLastInfix sep rest with
      | some (a, b) => some (c :: a, b)
      | none =>
          match litP sep (c :: rest) with
          | some b => some ([], b)
          | none => none

/-- Embeds `protocol.AUDIO_FORMAT_MAPPING.get(decoder, decoder)`: the static
display-name remapping of decoder-codec tokens. -/
def AUDIO_FORMAT_MAPPING (raw : String) : String :=
  if raw = "ATMOS TrueHD" then ("Dolby Atmos/Dolby TrueHD")
  else if raw = "DTS:X MA" then ("DTS:X Master Audio")
  else if raw = "DTS-HD MA" then ("DTS-HD Master Audio")
  else if raw = "ATMOS DD+" then ("Dolby Atmos/Dolby Digital Plus")
  else if raw = "DD" then ("Dolby Digital")
  else if raw = "TrueHD" then ("Dolby TrueHD")
  else raw

/-- The `(0|1)` group converted with `bool(int(...))`. -/
def boolDigit01 (l : List Char) : Option Bool :=
  match l with
  | ['0'] => some false
  | ['1'] => some true
  | _ => none

/-- Embeds `^AUDIOSYNC STATUS\s(0|1)$` → `_to_audiosync_status`. -/
def coreAudiosyncStatus (l : List Char) : Option Message :=
  match litP ("AUDIOSYNC STATUS").data l with
  | none => none
  | some r =>
      match spaceThen r with
      | none => none
      | some r2 => (boolDigit01 r2).map Message.audiosyncStatus

/-- Embeds `^AUDIOSYNC\s(.*)$` → `_to_audiosync`. -/
def coreAudiosync (l : List Char) : Option Message :=
  match litP ("AUDIOSYNC").data l with
  | none => none
  | some r =>
      match spaceThen r with
      | none => none
      | some r2 => (dotAll r2).map Message.audiosync

/-- Embeds `^BYPASS\s(0|1)$` → `_to_bypass`. -/
def coreBypass (l : List Char) : Option Message :=
  match litP ("BYPASS").data l with
  | none => none
  | some r =>
      match spaceThen r with
      | none => none
      | some r2 => (boolDigit01 r2).map Message.bypass

/-- Embeds `^BYE$` → `_to_bye`. -/
def coreBye (l : List Char) : Option Message :=
  if l = "BYE".data then some .bye else none

/-- Embeds `^CURRENT_PRESET\s(-?\d+)$` → `_to_current_preset`. -/
def coreCurrentPreset (l : List Char) : Option Message :=
  match litP ("CURRENT_PRESET").data l with
  | none => none
  | some r =>
      match spaceThen r with
      | none => none
      | some r2 => (intAll r2).map Message.currentPreset

/-- Embeds `^META_PRESET_LOADED\s(-?\d+)$` → `_to_current_preset` (the source
routes this alias through the same builder, producing a
`CurrentPresetMessage`). -/
def coreMetaPresetLoaded (l : List Char) : Option Message :=
  match litP ("META_PRESET_LOADED").data l with
  | none => none
  | some r =>
      match spaceThen r with
      | none => none
      | some r2 => (intAll r2).map Message.currentPreset

/-- Embeds `^CURRENT_PROFILE\s(-?\d+)$` → `_to_current_source`. -/
def coreCurrentProfile (l : List Char) : Option Message :=
  match litP ("CURRENT_PROFILE").data l with
  | none => none
  | some r =>
      match spaceThen r with
      | none => none
      | some r2 => (intAll r2).map Message.currentSource

/-- Embeds `^CURRENT_SOURCE_FORMAT_NAME\s(.*)$` → `_to_current_source_format`. -/
def coreCurrentSourceFormat (l : List Char) : Option Message :=
  match litP ("CURRENT_SOURCE_FORMAT_NAME").data l with
  | none => none
  | some r =>
      match spaceThen r with
      | none => none
      | some r2 => (dotAll r2).map Message.currentSourceFormat

/-- Embeds `^DECODER NONAUDIO (\d+) PLAYABLE (\d+) DECODER (.*) UPMIXER (.*)$`
→ `_to_decoder` (codec token remapped through
`AUDIO_FORMAT_MAPPING`). -/
def coreDecoder (l : List Char) : Option Message :=
  match litP ("DECODER NONAUDIO ").data l with
  | none => none
  | some r =>
      match natTok r with
      | none => none
      | some (n1, r2) =>
          match litP (" PLAYABLE ").data r2 with
          | none => none
          | some r3 =>
              match natTok r3 with
              | none => none
              | some (n2, r4) =>
                  match litP (" DECODER ").data r4 with
                  | none => none
                  | some r5 =>
                      match splitLastInfix (" UPMIXER ").data r5 with
                      | none => none
                      | some (a, b) =>
                          match dotAll a, dotAll b with
                          | some dec, some upx =>
                              some (.decoder (n1 ≠ 0) (n2 ≠ 0)
                                (AUDIO_FORMAT_MAPPING dec) upx)
                          | _, _ => none

/-- Embeds `^DIM\s(-?\d+)$` → `_to_dim` (`bool(int(...))`: any non-zero integer
becomes `true`). -/
def coreDim (l : List Char) : Option Message :=
  match litP ("DIM").data l with
  | none => none
  | some r =>
      match spaceThen r with
      | none => none
      | some r2 => (intAll r2).map (fun i => Message.dim (i ≠ 0))

/-- Embeds `^ERROR: (.*)$` → `_to_error`. -/
def coreError (l : List Char) : Option Message :=
  match litP ("ERROR: ").data l with
  | none => none
  | some r => (dotAll r).map Message.error

/-- Embeds `^LABEL\s(-?\d+): (.*)$` → `_to_preset`. -/
def corePreset (l : List Char) : Option Message :=
  match litP ("LABEL").data l with
  | none => none
  | some r =>
      match spaceThen r with
      | none => none
      | some r2 =>
          match intTok r2 with
          | none => none
          | some (i, r3) =>
              match litP (": ").data r3 with
              | none => none
              | some r4 => (dotAll r4).map (Message.preset i)

/-- Embeds `^LABELS_CLEAR$` → `_to_presets_clear`. -/
def corePresetsClear (l : List Char) : Option Message :=
  if l = "LABELS_CLEAR".data then some .presetsClear else none

/-- Embeds `^MUTE\s(0|1)$` → `_to_mute`. -/
def coreMute (l : List Char) : Option Message :=
  match litP ("MUTE").data l with
  | none => none
  | some r =>
      match spaceThen r with
      | none => none
      | some r2 => (boolDigit01 r2).map Message.mute

/-- Embeds `^OK$` → `_to_ok`. -/
def coreOk (l : List Char) : Option Message :=
  if l = "OK".data then some .ok else none

/-- Embeds `^PROFILE\s(-?\d+)$` → `_to_current_source` (bare index line for the
current source). -/
def coreProfileIndex (l : List Char) : Option Message :=
  match litP ("PROFILE").data l with
  | none => none
  | some r =>
      match spaceThen r with
      | none => none
      | some r2 => (intAll r2).map Message.currentSource

/-- Embeds `^PROFILE\s(-?\d+): (.*)$` → `_to_source`.  The `origin` field is
modelled from the spec (missing from `src/`'s `protocol.py`): the
`PROFILE <int>: <name>` line is the higher-fidelity `"profile"` wire
path. -/
def coreProfileEntry (l : List Char) : Option Message :=
  match litP ("PROFILE").data l with
  | none => none
  | some r =>
      match spaceThen r with
      | none => none
      | some r2 =>
          match intTok r2 with
          | none => none
          | some (i, r3) =>
              match litP (": ").data r3 with
              | none => none
              | some r4 => (dotAll r4).map (fun n => Message.source i n ("profile"))

/-- Embeds `^PROFILES_CLEAR$` → `_to_sources_clear`. -/
def coreProfilesClear (l : List Char) : Option Message :=
  if l = "PROFILES_CLEAR".data then some .sourcesClear else none

/-- Embeds `^SPEAKER_INFO\s(\d+)\s(-?\d+(?:\.\d+)?)\s(-?\d+(?:\.\d+)?)\s(-?\d+(?:\.\d+)?)$`
→ `_to_speaker_info`. -/
def coreSpeakerInfo (l : List Char) : Option Message :=
  match litP ("SPEAKER_INFO").data l with
  | none => none
  | some r =>
      match spaceThen r with
      | none => none
      | some r2 =>
          match natTok r2 with
          | none => none
          | some (num, r3) =>
              match spaceThen r3 with
              | none => none
              | some r4 =>
                  match decTok r4 with
                  | none => none
                  | some (radius, r5) =>
                      match spaceThen r5 with
                      | none => none
                      | some r6 =>
                          match decTok r6 with
                          | none => none
                          | some (theta, r7) =>
                              match spaceThen r7 with
                              | none => none
                              | some r8 =>
                                  match decTok r8 with
                                  | some (phi, []) =>
                                      some (.speakerInfo (num : Int) radius theta phi)
                                  | _ => none

/-- Embeds `^SRATE\s(\d+)$` → `_to_srate`. -/
def coreSrate (l : List Char) : Option Message :=
  match litP ("SRATE").data l with
  | none => none
  | some r =>
      match spaceThen r with
      | none => none
      | some r2 => (natAll r2).map Message.samplingRate

/-- Embeds `^START_RUNNING$` → `_to_start_running`. -/
def coreStartRunning (l : List Char) : Option Message :=
  if l = "START_RUNNING".data then some .startRunning else none

/-- Embeds `^VOLUME\s(-?\d+(?:\.\d+)?)$` → `_to_volume`. -/
def coreVolume (l : List Char) : Option Message :=
  match litP ("VOLUME").data l with
  | none => none
  | some r =>
      match spaceThen r with
      | none => none
      | some r2 =>
          match decTok r2 with
          | some (v, []) => some (.volume v)
          | _ => none

/-- Embeds `^Welcome on Trinnov Optimizer \(Version (\S+), ID (\d+)\)$`
→ `_to_welcome`: the `(\S+)` version group is the maximal non-space run
up to the comma of `", ID "` (the unique split, since `\S+` cannot cross
the space that follows the comma). -/
def coreWelcome (l : List Char) : Option Message :=
  match litP ("Welcome on Trinnov Optimizer (Version ").data l with
  | none => none
  | some r =>
      if (r.takeWhile (fun c => !isSpaceCh c)).getLast? = some ',' then
        if (r.takeWhile (fun c => !isSpaceCh c)).dropLast = [] then none
        else
          match litP (" ID ").data (r.dropWhile (fun c => !isSpaceCh c)) with
          | none => none
          | some t =>
              if t.takeWhile isDigitCh = [] then none
              else if t.dropWhile isDigitCh = [')'] then
                some (.welcome ⟨(r.takeWhile (fun c => !isSpaceCh c)).dropLast⟩
                  ⟨t.takeWhile isDigitCh⟩)
              else none
      else none

/-- Anchor a `^...$` rule: Python's `$` also matches just before a single
trailing newline, so a rule matches the input or the input minus one final
`'\n'`. -/
def anch (core : List Char → Option Message) (l : List Char) : Option Message :=
  match core l with
  | some m => some m
  | none => if l.getLast? = some '\n' then core l.dropLast else none

/-- Embeds `protocol.PARSER_RULES` in source order; the first rule that matches
wins. -/
def PARSER_RULES : List (List Char → Option Message) :=
  [anch coreAudiosyncStatus,
   anch coreAudiosync,
   anch coreBypass,
   anch coreBye,
   anch coreCurrentPreset,
   anch coreMetaPresetLoaded,
   anch coreCurrentProfile,
   anch coreCurrentSourceFormat,
   anch coreDecoder,
   anch coreDim,
   anch coreError,
   anch corePreset,
   anch corePresetsClear,
   anch coreMute,
   anch coreOk,
   anch coreProfileIndex,
   anch coreProfileEntry,
   anch coreProfilesClear,
   anch coreSpeakerInfo,
   anch coreSrate,
   anch coreStartRunning,
   anch coreVolume,
   anch coreWelcome]

/-- Try the rules in order, returning the first match. -/
def firstMatch : List (List Char → Option Message) → List Char → Option Message
  | [], _ => none
  | r :: rs, l =>
      match r l with
      | some m => some m
      | none => firstMatch rs l

/-- Embeds `protocol.parse_message`: parse one line from the protocol stream; a
line matching no rule yields `UnknownMessage` carrying the raw line. -/
def parse_message (line : String) : Message :=
  (firstMatch PARSER_RULES line.data).getD (.unknown line)

/-! ## Canonical events (`trinnov_altitude/canonical.py`) -/

inductive CanonicalEvent where
  | setAudiosync (mode : String)
  | setAudiosyncStatus (synchronized : Bool)
  | setBypass (state : Bool)
  | setCurrentPreset (index : Int)
  | setCurrentSource (index : Int)
  | setSourceFormat (format : String)
  | setDecoder (decoder upmixer : String)
  | setDim (state : Bool)
  | setFeatures (features : List String)
  | upsertPreset (index : Int) (name : String)
  | clearPresets
  | setMute (state : Bool)
  | upsertSource (index : Int) (name : String) (quality : Nat)
  | clearSources
  | sourcesChanged
  | setSamplingRate (rate : Int)
  | setVolume (volume : Rat)
  | setWelcome (version id : String)
deriving DecidableEq, Repr

/-- Modelled from the spec: the quality tier attached to source catalog
entries arriving on the higher-fidelity `profile` wire path.  The constant
is referenced by `normalizer.py` but its declaration is missing from the
copy of `canonical.py` under `src/`; only the distinction between the two
tiers (profile-path labels are preferred over optsource-path labels) is
specified, so the tiers are modelled as distinct naturals with the
higher-fidelity tier larger. -/
def SOURCE_LABEL_QUALITY_PROFILE : Nat := 2

/-- Modelled from the spec: the quality tier attached to source catalog
entries arriving on the lower-fidelity `optsource` wire path (declaration
missing from `src/`'s `canonical.py`, see
`SOURCE_LABEL_QUALITY_PROFILE`). -/
def SOURCE_LABEL_QUALITY_OPTSOURCE : Nat := 1

/-! ## Normalizer (`trinnov_altitude/normalizer.py`) -/

def PROFILE_DEFAULT : String := "default"

def PROFILE_ALTITUDE_CI : String := "altitude_ci"

/-- Embeds `normalizer.select_profile`: the quirk profile is `altitude_ci` iff the
feature flag string `"altitude_ci"` is among the observed features. -/
def select_profile (features : List String) : String :=
  if ("altitude_ci") ∈ features then PROFILE_ALTITUDE_CI else PROFILE_DEFAULT

/-- Embeds `normalizer.normalize_message`: map one raw protocol message to zero or
more canonical events (branch-for-branch translation of the `isinstance`
chain; unmapped message variants fall through to `[]`). -/
def normalize_message (message : Message) (profile : String) : List CanonicalEvent :=
  match message with
  | .audiosync mode => [.setAudiosync mode]
  | .audiosyncStatus synchronized => [.setAudiosyncStatus synchronized]
  | .bypass state => [.setBypass state]
  | .currentPreset index => [.setCurrentPreset index]
  | .currentSourceFormat format => [.setSourceFormat format]
  | .currentSource index => [.setCurrentSource index]
  | .decoder _ _ dec upx => [.setDecoder dec upx]
  | .dim state => [.setDim state]
  | .idents features => [.setFeatures features]
  | .metaPresetLoaded index =>
      if profile = PROFILE_ALTITUDE_CI then [.setCurrentSource index]
      else [.setCurrentPreset index]
  | .preset index name => [.upsertPreset index name]
  | .presetsClear => [.clearPresets]
  | .mute state => [.setMute state]
  | .source index name origin =>
      [.upsertSource index name
        (if origin = "optsource" then SOURCE_LABEL_QUALITY_OPTSOURCE
         else SOURCE_LABEL_QUALITY_PROFILE)]
  | .sourcesClear => [.clearSources]
  | .sourcesChanged => [.sourcesChanged]
  | .samplingRate rate => [.setSamplingRate rate]
  | .volume volume => [.setVolume volume]
  | .welcome version id => [.setWelcome version id]
  | _ => []

/-! ## Device state (`trinnov_altitude/state.py`)

The `presets` and `sources` dictionaries are modelled as insertion-ordered
association lists (see the header notes); the private `_seen_*` tracking
flags keep their names without the leading underscore. -/

structure AltitudeState where
  audiosync : Option String := none
  audiosync_status : Option Bool := none
  bypass : Option Bool := none
  decoder : Option String := none
  dim : Option Bool := none
  id : Option String := none
  mute : Option Bool := none
  preset : Option String := none
  presets : List (Int × String) := []
  sampling_rate : Option Int := none
  source : Option String := none
  source_format : Option String := none
  sources : List (Int × String) := []
  upmixer : Option String := none
  version : Option String := none
  volume : Option Rat := none
  current_preset_index : Option Int := none
  current_source_index : Option Int := none
  features : List String := []
  seen_welcome : Bool := false
  seen_preset_catalog : Bool := false
  seen_source_catalog : Bool := false
  seen_current_preset : Bool := false
  seen_current_source : Bool := false
deriving DecidableEq, Repr

/-- The freshly-constructed `AltitudeState()`: every field at its initial
unset value. -/
def initialAltitudeState : AltitudeState := {}

/-- Embeds `AltitudeState.reset_runtime_values`: restore every field and tracking
flag to its initial unset value. -/
def reset_runtime_values (_s : AltitudeState) : AltitudeState :=
  initialAltitudeState

/-- CPython `dict` assignment `d[k] = v`: overwrite in place when the key is
present, append otherwise. -/
def upsertAssoc (m : List (Int × String)) (k : Int) (v : String) :
    List (Int × String) :=
  match m with
  | [] => [(k, v)]
  | (k', v') :: rest =>
      if k' = k then (k, v) :: rest else (k', v') :: upsertAssoc rest k v

/-- CPython `dict.get(k)`: `some` of the stored value, or `none`. -/
def lookupAssoc (m : List (Int × String)) (k : Int) : Option String :=
  match m with
  | [] => none
  | (k', v') :: rest => if k' = k then some v' else lookupAssoc rest k

/-- Embeds `AltitudeState._apply_event`: reduce one canonical event into the state
(branch-for-branch translation of the `isinstance` chain). -/
def apply_event (s : AltitudeState) (event : CanonicalEvent) : AltitudeState :=
  match event with
  | .setAudiosync mode => { s with audiosync := some mode }
  | .setAudiosyncStatus synchronized =>
      { s with audiosync_status := some synchronized }
  | .setBypass state => { s with bypass := some state }
  | .setCurrentPreset index =>
      { s with current_preset_index := some index,
               preset := lookupAssoc s.presets index,
               seen_current_preset := true }
  | .setSourceFormat format => { s with source_format := some format }
  | .setCurrentSource index =>
      { s with current_source_index := some index,
               source := lookupAssoc s.sources index,
               seen_current_source := true }
  | .setFeatures features => { s with features := features }
  | .setDecoder dec upx => { s with decoder := some dec, upmixer := some upx }
  | .setDim state => { s with dim := some state }
  | .upsertPreset index name =>
      { s with presets := upsertAssoc s.presets index name,
               seen_preset_catalog := true,
               preset := if s.current_preset_index = some index then some name
                         else s.preset }
  | .clearPresets =>
      { s with presets := [],
               seen_preset_catalog := true,
               preset := if s.current_preset_index.isSome then none
                         else s.preset }
  | .setMute state => { s with mute := some state }
  | .upsertSource index name _quality =>
      { s with sources := upsertAssoc s.sources index name,
               seen_source_catalog := true,
               source := if s.current_source_index = some index then some name
                         else s.source }
  | .clearSources =>
      { s with sources := [],
               seen_source_catalog := true,
               source := if s.current_source_index.isSome then none
                         else s.source }
  | .sourcesChanged => s
  | .setSamplingRate rate => { s with sampling_rate := some rate }
  | .setVolume volume => { s with volume := some volume }
  | .setWelcome version id =>
      { s with version := some version, id := some id, seen_welcome := true }

/-- Apply a sequence of canonical events in order, starting from `s`. -/
def applyEvents (s : AltitudeState) (es : List CanonicalEvent) : AltitudeState :=
  es.foldl apply_event s

/-- Embeds `AltitudeState.apply`: normalize one raw message (with the profile
selected from the features seen so far) and reduce the resulting events. -/
def applyMessage (s : AltitudeState) (message : Message) : AltitudeState :=
  applyEvents s (normalize_message message (select_profile s.features))

/-- The derived `AltitudeState.synced` property. -/
def synced (s : AltitudeState) : Bool :=
  s.seen_welcome && s.seen_current_preset && s.seen_current_source &&
    (s.seen_preset_catalog || s.current_preset_index.isSome) &&
    (s.seen_source_catalog || s.current_source_index.isSome)

/-! ## Event classifiers and history lemmas for the sync invariant -/

/-- Is the event a set-welcome-identity event? -/
def evSetsWelcome : CanonicalEvent → Bool
  | .setWelcome _ _ => true
  | _ => false

/-- Is the event a set-current-preset-index event? -/
def evSetsCurrentPreset : CanonicalEvent → Bool
  | .setCurrentPreset _ => true
  | _ => false

/-- Is the event a set-current-source-index event? -/
def evSetsCurrentSource : CanonicalEvent → Bool
  | .setCurrentSource _ => true
  | _ => false

/-- Is the event an upsert or clear for the preset catalog? -/
def evTouchesPresetCatalog : CanonicalEvent → Bool
  | .upsertPreset _ _ => true
  | .clearPresets => true
  | _ => false

/-- Is the event an upsert or clear for the source catalog? -/
def evTouchesSourceCatalog : CanonicalEvent → Bool
  | .upsertSource _ _ _ => true
  | .clearSources => true
  | _ => false

/-- The spec's synced condition, written from the claim's words over the
event history: a welcome event has been seen, both current-index events
have been seen, and for each catalog either an upsert/clear for that
catalog has been seen or its current index is set in the resulting
state. -/
def syncedSpec (es : List CanonicalEvent) : Bool :=
  es.any evSetsWelcome && es.any evSetsCurrentPreset &&
    es.any evSetsCurrentSource &&
    (es.any evTouchesPresetCatalog ||
      (applyEvents initialAltitudeState es).current_preset_index.isSome) &&
    (es.any evTouchesSourceCatalog ||
      (applyEvents initialAltitudeState es).current_source_index.isSome)

/-- Invariant: both resolved display names equal the catalog lookup of the
corresponding current index. -/
def namesResolved (s : AltitudeState) : Prop :=
  s.preset = (s.current_preset_index.bind fun i => lookupAssoc s.presets i)
  ∧ s.source = (s.current_source_index.bind fun i => lookupAssoc s.sources i)

/-! ## Canonical decimal rendering of wire integers

Used to state the generative parsing theorems: `renderInt i` is the
decimal text standing for the `<int>` placeholder of a wire line. -/

/-- The decimal digit character for `d < 10`. -/
def digitChar : Nat → Char
  | 0 => '0'
  | 1 => '1'
  | 2 => '2'
  | 3 => '3'
  | 4 => '4'
  | 5 => '5'
  | 6 => '6'
  | 7 => '7'
  | 8 => '8'
  | _ => '9'

/-- Decimal digits of a natural number (fuelled structural recursion; the
fuel `n + 1` always suffices). -/
def natDigitsFuel : Nat → Nat → List Char
  | 0, _ => []
  | fuel + 1, n =>
      if n < 10 then [digitChar n]
      else natDigitsFuel fuel (n / 10) ++ [digitChar (n % 10)]

/-- Decimal digits of a natural number (`"0"` for zero, no leading
zeros). -/
def natDigits (n : Nat) : List Char := natDigitsFuel (n + 1) n

/-- Canonical decimal text of a natural number. -/
def renderNat (n : Nat) : String := ⟨natDigits n⟩

/-- Canonical decimal text of an integer, as characters (`-` sign for
negative values). -/
def renderIntChars (i : Int) : List Char :=
  if i < 0 then '-' :: natDigits i.natAbs else natDigits i.natAbs

/-- Canonical decimal text of an integer. -/
def renderInt (i : Int) : String := ⟨renderIntChars i⟩

/-- The §6 wire shape `DIM <0|1>`, written from the spec's words. -/
def dimWireShapeSpec (line : String) : Bool :=
  line = "DIM 0" || line = "DIM 1"

/-! ## Exceptions (`trinnov_altitude/exceptions.py`) -/

/-- The library's exception taxonomy (`exceptions.py`), one constructor
per exception class, with the payloads the claims mention.  Two additions:
`commandRejected` is raised by `client.py` but its declaration is missing
from `src/`'s `exceptions.py` — modelled from the spec: a
"command rejected" condition carrying the device-reported reason — and
`timeoutError` models Python's built-in `asyncio.TimeoutError`, which
`client._command` lets escape on ack timeout. -/
inductive ClientError where
  | connectionFailed
  | connectionTimeout
  | invalidMacAddressOUI
  | malformedMacAddress (mac_address : String)
  | noMacAddress
  | notConnected
  | commandRejected (command error : String)
  | timeoutError
deriving DecidableEq, Repr

/-! ## Ack correlation (`client.py`: `_command`, `_resolve_ack_waiter`) -/

/-- Is the message an ack-resolving reply (`OKMessage` or
`ErrorMessage`)? -/
def isAckReply : Message → Bool
  | .ok => true
  | .error _ => true
  | _ => false

/-- Embeds `client._resolve_ack_waiter` over the FIFO waiter queue (waiters are
identified by tokens): an OK/Error-class reply pops the oldest waiter and
assigns it the message; any other message, or an empty queue, changes
nothing. -/
def resolve_ack_waiter (q : List Nat) (m : Message) :
    List Nat × Option (Nat × Message) :=
  if isAckReply m then
    match q with
    | [] => ([], none)
    | w :: rest => (rest, some (w, m))
  else (q, none)

/-- Shallow model of one `client._command(line, wait_for_ack=True, ...)`
call interacting with the receive loop (`client.py` lines 311-351): the
waiter is enqueued (under the send lock) onto the empty pending queue;
`reply` is the message the receive loop delivers before the ack timeout
(`none` when nothing arrives in time); the result pairs the command's
outcome — the correlated reply, or `commandRejected` carrying the
device-reported reason when that reply is an Error-class message, or
`timeoutError` — with the pending waiter queue afterward (on timeout the
waiter is removed from the queue). -/
def command_with_ack (line : String) (reply : Option Message) :
    Except ClientError Message × List Nat :=
  let w : Nat := 0
  let q : List Nat := [w]
  match reply with
  | some m =>
      match resolve_ack_waiter q m with
      | (q', some (_, ack)) =>
          match ack with
          | .error e => (.error (.commandRejected line e), q')
          | _ => (.ok ack, q')
      | (q', none) => (.error .timeoutError, q'.filter (fun x => x ≠ w))
  | none => (.error .timeoutError, q.filter (fun x => x ≠ w))

/-! ## Connection transitions (`client.py`: `_connect_and_bootstrap`,
`_disconnect_statefully`) -/

/-- The state effect of a successful `client._connect_and_bootstrap`
(lines 188-206): the state is fully reset via `reset_runtime_values`, then
`bypass`, `dim` and `mute` are initialized to `False`. -/
def connect_and_bootstrap (s : AltitudeState) : AltitudeState :=
  let s' := reset_runtime_values s
  { s' with bypass := some false, dim := some false, mute := some false }

/-- The state effect of `client._disconnect_statefully` (lines 208-226): a
full reset. -/
def disconnect_statefully (s : AltitudeState) : AltitudeState :=
  reset_runtime_values s

/-! ## Reconnect backoff (`client.py`:
`_attempt_reconnect_until_success`, lines 288-304)

The numeric values (`float` in Python) are modelled as rationals; the
operations involved (`min`, `max`, doubling) are exact in both. -/

/-- The value of the `delay` variable before the `k`-th (0-based) failed
attempt's sleep: it starts at `max(0.0, reconnect_initial_backoff)` and
after each failed attempt becomes
`min(max(capped_delay * 2, initial), max_backoff)`. -/
def backoffDelay (initial maxB : Rat) : Nat → Rat
  | 0 => max 0 initial
  | k + 1 =>
      let capped := min (backoffDelay initial maxB k) maxB
      min (max (capped * 2) initial) maxB

/-- Embeds `capped_delay = min(delay, reconnect_max_backoff)` for the `k`-th
(0-based) failed attempt. -/
def cappedDelay (initial maxB : Rat) (k : Nat) : Rat :=
  min (backoffDelay initial maxB k) maxB

/-- The delay actually slept before retry `k` (0-based):
`capped_delay + capped_delay * reconnect_jitter * random()`, where `r k`
is the `k`-th draw of `random()`. -/
def sleptDelay (initial maxB jitter : Rat) (r : Nat → Rat) (k : Nat) : Rat :=
  cappedDelay initial maxB k + cappedDelay initial maxB k * jitter * r k

/-! ## MAC validation (`client.py`: `validate_mac`, lines 110-115)

`validate_mac` matches `^([0-9A-Fa-f]{2}[:-]){5}([0-9A-Fa-f]{2})$` against
`mac_address.lower()` and raises `MalformedMacAddressError` when the match
fails.  Python's `str.lower` is modelled on the ASCII fragment. -/

/-- Python `str.lower` on one character (ASCII fragment). -/
def charLower (c : Char) : Char :=
  match c with
  | 'A' => 'a'
  | 'B' => 'b'
  | 'C' => 'c'
  | 'D' => 'd'
  | 'E' => 'e'
  | 'F' => 'f'
  | 'G' => 'g'
  | 'H' => 'h'
  | 'I' => 'i'
  | 'J' => 'j'
  | 'K' => 'k'
  | 'L' => 'l'
  | 'M' => 'm'
  | 'N' => 'n'
  | 'O' => 'o'
  | 'P' => 'p'
  | 'Q' => 'q'
  | 'R' => 'r'
  | 'S' => 's'
  | 'T' => 't'
  | 'U' => 'u'
  | 'V' => 'v'
  | 'W' => 'w'
  | 'X' => 'x'
  | 'Y' => 'y'
  | 'Z' => 'z'
  | c => c

/-- The regex class `[0-9A-Fa-f]`. -/
def isHexDigitCh (c : Char) : Bool :=
  isDigitCh c || ('a' ≤ c && c ≤ 'f') || ('A' ≤ c && c ≤ 'F')

/-- The regex class `[:-]`. -/
def isMacSepCh (c : Char) : Bool := c = ':' || c = '-'

/-- Recognize `n` further `[:-][0-9A-Fa-f]{2}` groups, then end of input. -/
def macGroupsTail : Nat → List Char → Bool
  | 0, [] => true
  | 0, _ :: _ => false
  | n + 1, s :: a :: b :: rest =>
      isMacSepCh s && isHexDigitCh a && isHexDigitCh b && macGroupsTail n rest
  | _ + 1, _ => false

/-- The anchored body `([0-9A-Fa-f]{2}[:-]){5}([0-9A-Fa-f]{2})`. -/
def macCore (l : List Char) : Bool :=
  match l with
  | a :: b :: rest => isHexDigitCh a && isHexDigitCh b && macGroupsTail 5 rest
  | _ => false

/-- Embeds `re.Pattern.match` of the anchored MAC pattern: the final `$` also
matches just before a single trailing newline. -/
def macRegexMatch (l : List Char) : Bool :=
  macCore l || (l.getLast? = some '\n' && macCore l.dropLast)

/-- Embeds `TrinnovAltitudeClient.validate_mac`. -/
def validate_mac (mac_address : String) : Except ClientError Bool :=
  if macRegexMatch (mac_address.data.map charLower) then .ok true
  else .error (.malformedMacAddress mac_address)

/-- The claim's accepted MAC format, written from its words: exactly six
two-hex-digit groups (either letter case) separated by `':'` or `'-'`. -/
def specMacShape (s : String) : Bool :=
  match s.data with
  | [a1, b1, s1, a2, b2, s2, a3, b3, s3, a4, b4, s4, a5, b5, s5, a6, b6] =>
      isHexDigitCh a1 && isHexDigitCh b1 && isMacSepCh s1 &&
      isHexDigitCh a2 && isHexDigitCh b2 && isMacSepCh s2 &&
      isHexDigitCh a3 && isHexDigitCh b3 && isMacSepCh s3 &&
      isHexDigitCh a4 && isHexDigitCh b4 && isMacSepCh s4 &&
      isHexDigitCh a5 && isHexDigitCh b5 && isMacSepCh s5 &&
      isHexDigitCh a6 && isHexDigitCh b6
  | _ => false

theorem applyEvents_cons (s : AltitudeState) (e : CanonicalEvent)
    (t : List CanonicalEvent) :
    applyEvents s (e :: t) = applyEvents (apply_event s e) t := rfl

theorem seen_welcome_applyEvents :
    ∀ (es : List CanonicalEvent) (s : AltitudeState),
      (applyEvents s es).seen_welcome = (s.seen_welcome || es.any evSetsWelcome)
  | [], s => by simp [applyEvents]
  | e :: t, s => by
      rw [applyEvents_cons, seen_welcome_applyEvents t]
      cases e <;> simp [apply_event, evSetsWelcome, Bool.or_assoc]

theorem seen_current_preset_applyEvents :
    ∀ (es : List CanonicalEvent) (s : AltitudeState),
      (applyEvents s es).seen_current_preset
        = (s.seen_current_preset || es.any evSetsCurrentPreset)
  | [], s => by simp [applyEvents]
  | e :: t, s => by
      rw [applyEvents_cons, seen_current_preset_applyEvents t]
      cases e <;> simp [apply_event, evSetsCurrentPreset, Bool.or_assoc]

theorem seen_current_source_applyEvents :
    ∀ (es : List CanonicalEvent) (s : AltitudeState),
      (applyEvents s es).seen_current_source
        = (s.seen_current_source || es.any evSetsCurrentSource)
  | [], s => by simp [applyEvents]
  | e :: t, s => by
      rw [applyEvents_cons, seen_current_source_applyEvents t]
      cases e <;> simp [apply_event, evSetsCurrentSource, Bool.or_assoc]

theorem seen_preset_catalog_applyEvents :
    ∀ (es : List CanonicalEvent) (s : AltitudeState),
      (applyEvents s es).seen_preset_catalog
        = (s.seen_preset_catalog || es.any evTouchesPresetCatalog)
  | [], s => by simp [applyEvents]
  | e :: t, s => by
      rw [applyEvents_cons, seen_preset_catalog_applyEvents t]
      cases e <;> simp [apply_event, evTouchesPresetCatalog, Bool.or_assoc]

theorem seen_source_catalog_applyEvents :
    ∀ (es : List CanonicalEvent) (s : AltitudeState),
      (applyEvents s es).seen_source_catalog
        = (s.seen_source_catalog || es.any evTouchesSourceCatalog)
  | [], s => by simp [applyEvents]
  | e :: t, s => by
      rw [applyEvents_cons, seen_source_catalog_applyEvents t]
      cases e <;> simp [apply_event, evTouchesSourceCatalog, Bool.or_assoc]

theorem cpi_isSome_applyEvents :
    ∀ (es : List CanonicalEvent) (s : AltitudeState),
      (applyEvents s es).current_preset_index.isSome
        = (s.current_preset_index.isSome || es.any evSetsCurrentPreset)
  | [], s => by simp [applyEvents]
  | e :: t, s => by
      rw [applyEvents_cons, cpi_isSome_applyEvents t]
      cases e <;> simp [apply_event, evSetsCurrentPreset, Bool.or_assoc]

theorem csi_isSome_applyEvents :
    ∀ (es : List CanonicalEvent) (s : AltitudeState),
      (applyEvents s es).current_source_index.isSome
        = (s.current_source_index.isSome || es.any evSetsCurrentSource)
  | [], s => by simp [applyEvents]
  | e :: t, s => by
      rw [applyEvents_cons, csi_isSome_applyEvents t]
      cases e <;> simp [apply_event, evSetsCurrentSource, Bool.or_assoc]

/-- Claim C1: For every sequence of canonical events applied to a
freshly-reset state, `synced` is true iff a welcome event has been seen,
both current-index events have been seen, and for each catalog either an
upsert/clear for it has been seen or its current index is set; moreover
`synced` is preserved by every further event, and a reset makes it
false. -/
theorem claim_C1_synced_invariant :
    (∀ es : List CanonicalEvent,
      synced (applyEvents initialAltitudeState es) = true ↔ syncedSpec es = true)
    ∧ (∀ (s : AltitudeState) (e : CanonicalEvent),
        synced s = true → synced (apply_event s e) = true)
    ∧ (∀ s : AltitudeState, synced (reset_runtime_values s) = false) := by
  refine ⟨?_, ?_, ?_⟩
  · intro es
    rw [synced, seen_welcome_applyEvents, seen_current_preset_applyEvents,
      seen_current_source_applyEvents, seen_preset_catalog_applyEvents,
      seen_source_catalog_applyEvents, syncedSpec]
    simp [initialAltitudeState]
  · intro s e h
    simp only [synced, Bool.and_eq_true, Bool.or_eq_true] at h ⊢
    cases e <;> simp [apply_event] <;> tauto
  · intro _
    rfl

/-- Closed witness for `claim_C1_synced_invariant`. -/
theorem claim_C1_synced_invariant_witness :
    synced (applyEvents initialAltitudeState
      [.setWelcome ("4.3.2") "10485761", .setCurrentPreset 0,
        .setCurrentSource 0]) = true
    ∧ synced (reset_runtime_values initialAltitudeState) = false :=
  ⟨(claim_C1_synced_invariant.1
      [.setWelcome ("4.3.2") "10485761", .setCurrentPreset 0,
        .setCurrentSource 0]).mpr (by decide),
    claim_C1_synced_invariant.2.2 initialAltitudeState⟩

/-! ## Catalog-lookup lemmas and the resolved-name invariant -/

theorem lookupAssoc_upsertAssoc_self (m : List (Int × String)) (k : Int)
    (v : String) : lookupAssoc (upsertAssoc m k v) k = some v := by
  induction m with
  | nil => simp [upsertAssoc, lookupAssoc]
  | cons hd tl ih =>
      obtain ⟨k', v'⟩ := hd
      by_cases h : k' = k <;> simp [upsertAssoc, lookupAssoc, h, ih]

theorem lookupAssoc_upsertAssoc_ne (m : List (Int × String)) (k j : Int)
    (v : String) (h : j ≠ k) :
    lookupAssoc (upsertAssoc m k v) j = lookupAssoc m j := by
  have h' : ¬k = j := fun hh => h hh.symm
  induction m with
  | nil => simp [upsertAssoc, lookupAssoc, h']
  | cons hd tl ih =>
      obtain ⟨k', v'⟩ := hd
      by_cases hk : k' = k
      · subst hk
        simp [upsertAssoc, lookupAssoc, h']
      · simp [upsertAssoc, lookupAssoc, hk, ih]

theorem upsertAssoc_idem (m : List (Int × String)) (k : Int) (v : String) :
    upsertAssoc (upsertAssoc m k v) k v = upsertAssoc m k v := by
  induction m with
  | nil => simp [upsertAssoc]
  | cons hd tl ih =>
      obtain ⟨k', v'⟩ := hd
      by_cases h : k' = k <;> simp [upsertAssoc, h, ih]

theorem namesResolved_apply_event (s : AltitudeState) (e : CanonicalEvent)
    (h : namesResolved s) : namesResolved (apply_event s e) := by
  obtain ⟨hp, hs⟩ := h
  cases e with
  | upsertPreset i n =>
      refine ⟨?_, by simpa [apply_event] using hs⟩
      simp only [apply_event]
      cases hcpi : s.current_preset_index with
      | none =>
          rw [hcpi] at hp
          simp [hcpi, hp]
      | some j =>
          rw [hcpi] at hp
          by_cases hij : j = i
          · subst hij
            simp [hcpi, lookupAssoc_upsertAssoc_self]
          · simp [hcpi, hij, lookupAssoc_upsertAssoc_ne _ _ _ _ hij]
            simpa using hp
  | clearPresets =>
      refine ⟨?_, by simpa [apply_event] using hs⟩
      simp only [apply_event]
      cases hcpi : s.current_preset_index with
      | none =>
          rw [hcpi] at hp
          simp [hcpi, hp]
      | some j => simp [hcpi, lookupAssoc]
  | upsertSource i n q =>
      refine ⟨by simpa [apply_event] using hp, ?_⟩
      simp only [apply_event]
      cases hcsi : s.current_source_index with
      | none =>
          rw [hcsi] at hs
          simp [hcsi, hs]
      | some j =>
          rw [hcsi] at hs
          by_cases hij : j = i
          · subst hij
            simp [hcsi, lookupAssoc_upsertAssoc_self]
          · simp [hcsi, hij, lookupAssoc_upsertAssoc_ne _ _ _ _ hij]
            simpa using hs
  | clearSources =>
      refine ⟨by simpa [apply_event] using hp, ?_⟩
      simp only [apply_event]
      cases hcsi : s.current_source_index with
      | none =>
          rw [hcsi] at hs
          simp [hcsi, hs]
      | some j => simp [hcsi, lookupAssoc]
  | setCurrentPreset i => exact ⟨by simp [apply_event], by simpa [apply_event] using hs⟩
  | setCurrentSource i => exact ⟨by simpa [apply_event] using hp, by simp [apply_event]⟩
  | setAudiosync mode => exact ⟨by simpa [apply_event] using hp, by simpa [apply_event] using hs⟩
  | setAudiosyncStatus b => exact ⟨by simpa [apply_event] using hp, by simpa [apply_event] using hs⟩
  | setBypass b => exact ⟨by simpa [apply_event] using hp, by simpa [apply_event] using hs⟩
  | setSourceFormat f => exact ⟨by simpa [apply_event] using hp, by simpa [apply_event] using hs⟩
  | setDecoder d u => exact ⟨by simpa [apply_event] using hp, by simpa [apply_event] using hs⟩
  | setDim b => exact ⟨by simpa [apply_event] using hp, by simpa [apply_event] using hs⟩
  | setFeatures f => exact ⟨by simpa [apply_event] using hp, by simpa [apply_event] using hs⟩
  | setMute b => exact ⟨by simpa [apply_event] using hp, by simpa [apply_event] using hs⟩
  | sourcesChanged => exact ⟨by simpa [apply_event] using hp, by simpa [apply_event] using hs⟩
  | setSamplingRate r => exact ⟨by simpa [apply_event] using hp, by simpa [apply_event] using hs⟩
  | setVolume v => exact ⟨by simpa [apply_event] using hp, by simpa [apply_event] using hs⟩
  | setWelcome v i => exact ⟨by simpa [apply_event] using hp, by simpa [apply_event] using hs⟩

theorem namesResolved_applyEvents :
    ∀ (es : List CanonicalEvent) (s : AltitudeState),
      namesResolved s → namesResolved (applyEvents s es)
  | [], _, h => h
  | e :: t, s, h =>
      namesResolved_applyEvents t (apply_event s e)
        (namesResolved_apply_event s e h)

/-- Claim C3: After any event history from a fresh state, the resolved
current preset/source name equals the catalog lookup of the current index
(null when the index is unset or absent); a catalog clear while an index
is set nulls the resolved name, and an upsert at the selected index
backfills it. -/
theorem claim_C3_resolved_names :
    (∀ es : List CanonicalEvent,
        (applyEvents initialAltitudeState es).preset
          = ((applyEvents initialAltitudeState es).current_preset_index.bind
              fun i => lookupAssoc (applyEvents initialAltitudeState es).presets i)
      ∧ (applyEvents initialAltitudeState es).source
          = ((applyEvents initialAltitudeState es).current_source_index.bind
              fun i => lookupAssoc (applyEvents initialAltitudeState es).sources i))
    ∧ (∀ s : AltitudeState, s.current_preset_index.isSome = true →
        (apply_event s .clearPresets).preset = none)
    ∧ (∀ s : AltitudeState, s.current_source_index.isSome = true →
        (apply_event s .clearSources).source = none)
    ∧ (∀ (s : AltitudeState) (i : Int) (n : String),
        s.current_preset_index = some i →
        (apply_event s (.upsertPreset i n)).preset = some n)
    ∧ (∀ (s : AltitudeState) (i : Int) (n : String) (q : Nat),
        s.current_source_index = some i →
        (apply_event s (.upsertSource i n q)).source = some n) := by
  refine ⟨?inv, ?clrP, ?clrS, ?upP, ?upS⟩
  · intro es
    exact namesResolved_applyEvents es initialAltitudeState ⟨rfl, rfl⟩
  · intro s h
    simp [apply_event, h]
  · intro s h
    simp [apply_event, h]
  · intro s i n h
    simp [apply_event, h]
  · intro s i n q h
    simp [apply_event, h]

/-- Closed witness for `claim_C3_resolved_names`: scenario B of the spec
(catalog entries backfill names after index selection) plus a clear that
nulls the resolved name. -/
theorem claim_C3_resolved_names_witness :
    (apply_event (applyEvents initialAltitudeState
        [.setCurrentPreset 3, .setCurrentSource 4]) (.upsertPreset 3 ("Cinema"))).preset
      = some ("Cinema")
    ∧ (apply_event (applyEvents initialAltitudeState
        [.setCurrentPreset 3, .setCurrentSource 4])
          (.upsertSource 4 ("Shield") SOURCE_LABEL_QUALITY_PROFILE)).source
      = some ("Shield")
    ∧ (apply_event (applyEvents initialAltitudeState
        [.setCurrentPreset 3, .setCurrentSource 4]) .clearPresets).preset = none :=
  ⟨claim_C3_resolved_names.2.2.2.1 _ 3 ("Cinema") (by decide),
    claim_C3_resolved_names.2.2.2.2 _ 4 ("Shield") SOURCE_LABEL_QUALITY_PROFILE
      (by decide),
    claim_C3_resolved_names.2.1 _ (by decide)⟩

/-- Claim C8: Applying the same canonical event twice yields the same state
as applying it once, and the informational sources-changed marker (the
reducer's explicit no-op branch) leaves the state unchanged. -/
theorem claim_C8_apply_event_idempotent :
    (∀ (s : AltitudeState) (e : CanonicalEvent),
      apply_event (apply_event s e) e = apply_event s e)
    ∧ (∀ s : AltitudeState, apply_event s .sourcesChanged = s) := by
  constructor
  · intro s e
    cases e <;> simp [apply_event, upsertAssoc_idem] <;> split <;> simp_all
  · intro s
    rfl

/-! ## Normalizer claims -/

/-- Claim C4: `normalize_message` is total for every message and profile,
returning at most one event (so in particular a possibly-empty list and no
failure mode); every source catalog-entry message yields an upsert-source
event whose quality tier is determined by the message's origin tag; and
unmapped messages yield the empty event sequence. -/
theorem claim_C4_normalizer_total :
    (∀ (m : Message) (p : String), (normalize_message m p).length ≤ 1)
    ∧ (∀ (p : String) (i : Int) (name origin : String),
        normalize_message (.source i name origin) p
          = [.upsertSource i name
              (if origin = "optsource" then SOURCE_LABEL_QUALITY_OPTSOURCE
               else SOURCE_LABEL_QUALITY_PROFILE)])
    ∧ (∀ p raw : String, normalize_message (.unknown raw) p = [])
    ∧ (∀ p : String,
        normalize_message .ok p = [] ∧ normalize_message .bye p = []
        ∧ normalize_message .startRunning p = []
        ∧ ∀ (n : Int) (x y z : Rat),
            normalize_message (.speakerInfo n x y z) p = []) := by
  refine ⟨?len, ?src, ?unk, ?unmapped⟩
  · intro m p
    cases m <;> simp only [normalize_message] <;> first
      | simp
      | (split <;> simp)
  · intro p i name origin
    rfl
  · intro p raw
    rfl
  · intro p
    exact ⟨rfl, rfl, rfl, fun n x y z => rfl⟩

/-- Claim C5 counterexample:  With the alternate quirk profile active, the
parse-then-normalize pipeline maps the wire line `META_PRESET_LOADED 2` to
a set-current-preset-index event — not the set-current-source-index event
the claim requires — because `parse_message` routes the line through
`_to_current_preset`, producing a `CurrentPresetMessage`. -/
theorem claim_C5_pipeline_counterexample :
    normalize_message (parse_message ("META_PRESET_LOADED 2")) PROFILE_ALTITUDE_CI
      = [.setCurrentPreset 2]
    ∧ normalize_message (parse_message ("META_PRESET_LOADED 2")) PROFILE_ALTITUDE_CI
      ≠ [.setCurrentSource 2] := by
  constructor <;> decide

/-! ## Client engine claims -/

/-- Claim C6: A command sent with wait-for-ack requested returns the
correlated `OK` reply, raises command-rejected carrying the
device-reported reason when the correlated reply is an Error message, and
raises a timeout error with the waiter removed (zero pending waiters
afterwards) when no reply arrives within the ack timeout. -/
theorem claim_C6_command_ack_outcomes :
    ∀ line reason : String,
      command_with_ack line (some .ok) = (.ok .ok, [])
      ∧ command_with_ack line (some (.error reason))
          = (.error (.commandRejected line reason), [])
      ∧ command_with_ack line none = (.error .timeoutError, []) := by
  intro line reason
  exact ⟨rfl, rfl, rfl⟩

/-- Claim C7 counterexample:  After a successful (re)connect bootstrap the
state is not fully unset: `bypass` (likewise `dim` and `mute`) has been
initialized to `False` rather than left at its initial unset value. -/
theorem claim_C7_bootstrap_counterexample :
    (connect_and_bootstrap initialAltitudeState).bypass = some false
    ∧ ¬(connect_and_bootstrap initialAltitudeState).bypass = none := by
  constructor <;> decide

/-- Claim C7 amended:  On every disconnect the state is fully reset to its
initial unset values; on every successful (re)connect bootstrap it is
first fully reset and then `bypass`, `dim` and `mute` are initialized to
`False`; in both cases the result is independent of the previous state, so
no value observed during one connection cycle survives into the next. -/
theorem claim_C7_reset_on_transitions :
    ∀ s s' : AltitudeState,
      disconnect_statefully s = initialAltitudeState
      ∧ disconnect_statefully s = disconnect_statefully s'
      ∧ connect_and_bootstrap s = connect_and_bootstrap s'
      ∧ connect_and_bootstrap s
          = { initialAltitudeState with
                bypass := some false, dim := some false, mute := some false }
      ∧ synced (disconnect_statefully s) = false
      ∧ synced (connect_and_bootstrap s) = false
      ∧ (connect_and_bootstrap s).volume = none
      ∧ (connect_and_bootstrap s).preset = none
      ∧ (connect_and_bootstrap s).source = none
      ∧ (connect_and_bootstrap s).presets = []
      ∧ (connect_and_bootstrap s).sources = []
      ∧ (connect_and_bootstrap s).current_preset_index = none
      ∧ (connect_and_bootstrap s).current_source_index = none
      ∧ (connect_and_bootstrap s).features = []
      ∧ (connect_and_bootstrap s).bypass = some false
      ∧ (connect_and_bootstrap s).dim = some false
      ∧ (connect_and_bootstrap s).mute = some false := by
  intro s s'
  repeat' apply And.intro
  all_goals rfl

/-- Claim C9: With every connect attempt failing, the delay slept before the
`k`-th retry (0-based here, so `2 ^ k = 2 ^ ((k + 1) - 1)` in the claim's
1-based counting) is `capped + capped * jitter * r k` with
`capped = min (initial * 2 ^ k) max_backoff`: delays start at the initial
backoff, double each failed attempt, are capped at the maximum backoff,
and the added jitter never exceeds the configured fraction of the capped
delay. -/
theorem claim_C9_reconnect_backoff (initial maxB jitter : Rat)
    (r : Nat → Rat) (h0 : 0 ≤ initial) (hj : 0 ≤ jitter) (hm : 0 ≤ maxB)
    (hr : ∀ k, 0 ≤ r k ∧ r k < 1) :
    ∀ k : Nat,
      cappedDelay initial maxB k = min (initial * 2 ^ k) maxB
      ∧ sleptDelay initial maxB jitter r k
          = cappedDelay initial maxB k
            + cappedDelay initial maxB k * jitter * r k
      ∧ cappedDelay initial maxB k * jitter * r k
          ≤ jitter * cappedDelay initial maxB k := by
  have hcap : ∀ j : Nat, cappedDelay initial maxB j = min (initial * 2 ^ j) maxB := by
    intro j
    induction j with
    | zero => simp [cappedDelay, backoffDelay, max_eq_right h0]
    | succ n ih =>
        have h1n : (1 : Rat) ≤ 2 ^ n := one_le_pow₀ (by norm_num)
        have hpow : (0 : Rat) ≤ 2 ^ n := by positivity
        rw [cappedDelay, backoffDelay, ← cappedDelay, ih]
        rcases le_total (initial * 2 ^ n) maxB with h | h
        · rw [min_eq_left h]
          have hle : initial ≤ initial * 2 ^ n * 2 := by
            nlinarith [mul_nonneg h0 (by nlinarith : (0 : Rat) ≤ 2 ^ n * 2 - 1)]
          rw [max_eq_left hle, min_assoc, min_self, pow_succ, mul_assoc]
        · rw [min_eq_right h]
          have hle : maxB ≤ max (maxB * 2) initial :=
            le_trans (by nlinarith) (le_max_left _ _)
          rw [min_eq_right hle, min_self]
          have hms : maxB ≤ initial * 2 ^ (n + 1) := by
            have : initial * 2 ^ n ≤ initial * 2 ^ (n + 1) := by
              rw [pow_succ, ← mul_assoc]
              nlinarith [mul_nonneg h0 hpow]
            linarith
          rw [min_eq_right hms]
  intro k
  have hc : 0 ≤ cappedDelay initial maxB k := by
    rw [hcap k]
    have : (0 : Rat) ≤ initial * 2 ^ k := by positivity
    exact le_min this hm
  refine ⟨hcap k, rfl, ?_⟩
  obtain ⟨hr0, hr1⟩ := hr k
  nlinarith [mul_nonneg hc hj]

/-- Closed witness for `claim_C9_reconnect_backoff`: fourth retry with
initial backoff 1, cap 30, jitter 0 and zero random draws. -/
theorem claim_C9_reconnect_backoff_witness :
    cappedDelay 1 30 3 = min ((1 : Rat) * 2 ^ 3) 30 :=
  (claim_C9_reconnect_backoff 1 30 0 (fun _ => 0) (by decide)
    (by decide) (by decide)
    (fun _ => ⟨(by decide : (0 : Rat) ≤ 0), (by decide : (0 : Rat) < 1)⟩) 3).1


theorem digitsToNat_append_digit (xs : List Char) (c : Char) :
    digitsToNat (xs ++ [c]) = digitsToNat xs * 10 + (c.toNat - 48) := by
  simp [digitsToNat, List.foldl_append]

theorem digitChar_lt10 (d : Nat) (h : d < 10) :
    isDigitCh (digitChar d) = true ∧ (digitChar d).toNat - 48 = d := by
  interval_cases d <;> exact ⟨by decide, by decide⟩

theorem natDigitsFuel_spec :
    ∀ fuel n : Nat, n < fuel →
      natDigitsFuel fuel n ≠ []
      ∧ (natDigitsFuel fuel n).all isDigitCh = true
      ∧ digitsToNat (natDigitsFuel fuel n) = n := by
  intro fuel
  induction fuel with
  | zero => intro n h; omega
  | succ f ih =>
      intro n h
      by_cases h10 : n < 10
      · refine ⟨by simp [natDigitsFuel, h10], ?_, ?_⟩
        · simp [natDigitsFuel, h10, (digitChar_lt10 n h10).1]
        · have hd := (digitChar_lt10 n h10).2
          simp only [natDigitsFuel, if_pos h10]
          simp [digitsToNat]
          omega
      · have hdiv : n / 10 < f := by
          have h1 : n / 10 < n := Nat.div_lt_self (by omega) (by omega)
          omega
        obtain ⟨hne, hall, hval⟩ := ih (n / 10) hdiv
        refine ⟨?_, ?_, ?_⟩
        · simp [natDigitsFuel, h10]
        · simp [natDigitsFuel, h10, List.all_append, hall,
            (digitChar_lt10 (n % 10) (by omega)).1]
        · have hd := (digitChar_lt10 (n % 10) (by omega)).2
          simp only [natDigitsFuel, if_neg h10]
          rw [digitsToNat_append_digit, hval]
          omega

theorem natDigits_spec (n : Nat) :
    natDigits n ≠ [] ∧ (natDigits n).all isDigitCh = true
      ∧ digitsToNat (natDigits n) = n :=
  natDigitsFuel_spec (n + 1) n (by omega)

theorem no_nl_of_all_digits (l : List Char) (h : l.all isDigitCh = true) :
    '\n' ∉ l := by
  intro hm
  have := List.all_eq_true.mp h _ hm
  exact absurd this (by decide)

theorem getLast_ne_nl (l : List Char) (h : '\n' ∉ l) :
    ¬l.getLast? = some '\n' := by
  intro hg
  obtain ⟨hne, heq⟩ :=
    List.mem_getLast?_eq_getLast (Option.mem_def.mpr hg)
  exact h (heq ▸ List.getLast_mem hne)

theorem renderIntChars_no_nl (i : Int) : '\n' ∉ renderIntChars i := by
  unfold renderIntChars
  have hnl := no_nl_of_all_digits _ (natDigits_spec i.natAbs).2.1
  split <;> simp_all [List.mem_cons]

theorem renderIntChars_ne_nil (i : Int) : renderIntChars i ≠ [] := by
  unfold renderIntChars
  have := (natDigits_spec i.natAbs).1
  split <;> simp_all

theorem takeWhile_append_all (p : Char → Bool) (xs ys : List Char)
    (h : xs.all p = true) : (xs ++ ys).takeWhile p = xs ++ ys.takeWhile p := by
  induction xs with
  | nil => simp
  | cons a t ih => simp_all [List.takeWhile_cons]

theorem dropWhile_append_all (p : Char → Bool) (xs ys : List Char)
    (h : xs.all p = true) : (xs ++ ys).dropWhile p = ys.dropWhile p := by
  induction xs with
  | nil => simp
  | cons a t ih => simp_all [List.dropWhile_cons]

theorem takeWhile_all_eq (p : Char → Bool) (l : List Char)
    (h : l.all p = true) : l.takeWhile p = l := by
  simpa using takeWhile_append_all p l [] h

theorem dropWhile_all_eq (p : Char → Bool) (l : List Char)
    (h : l.all p = true) : l.dropWhile p = [] := by
  simpa using dropWhile_append_all p l [] h

theorem intAll_renderIntChars (i : Int) : intAll (renderIntChars i) = some i := by
  obtain ⟨hne, hall, hval⟩ := natDigits_spec i.natAbs
  unfold renderIntChars
  split
  · rename_i hneg
    have hcast : -(i.natAbs : Int) = i := by omega
    simp only [intAll, if_pos rfl, if_pos (And.intro hne hall), hval, hcast,
      if_true]
  · rename_i hpos
    have hcast : (i.natAbs : Int) = i := by omega
    cases hnd : natDigits i.natAbs with
    | nil => exact absurd hnd hne
    | cons c cs =>
        rw [hnd] at hall hval
        have hc : isDigitCh c = true := by
          simp only [List.all_cons, Bool.and_eq_true] at hall
          exact hall.1
        have hcm : ¬ c = '-' := by
          intro hcc
          rw [hcc] at hc
          exact absurd hc (by decide)
        simp only [intAll, if_neg hcm, if_pos hall, hval, hcast]

theorem intTok_renderIntChars_append (i : Int) (c : Char) (t : List Char)
    (hc : isDigitCh c = false) :
    intTok (renderIntChars i ++ c :: t) = some (i, c :: t) := by
  obtain ⟨hne, hall, hval⟩ := natDigits_spec i.natAbs
  have htw : (natDigits i.natAbs ++ c :: t).takeWhile isDigitCh
      = natDigits i.natAbs := by
    rw [takeWhile_append_all _ _ _ hall, List.takeWhile_cons, hc]
    simp
  have hdw : (natDigits i.natAbs ++ c :: t).dropWhile isDigitCh = c :: t := by
    rw [dropWhile_append_all _ _ _ hall, List.dropWhile_cons, hc]
    simp
  unfold renderIntChars
  split
  · rename_i hneg
    have hcast : -(i.natAbs : Int) = i := by omega
    rw [List.cons_append]
    simp only [intTok, if_pos rfl, htw, hdw, if_neg hne, hval, hcast, if_true]
  · rename_i hpos
    have hcast : (i.natAbs : Int) = i := by omega
    cases hnd : natDigits i.natAbs with
    | nil => exact absurd hnd hne
    | cons d ds =>
        rw [hnd] at htw hdw hval
        have hd : isDigitCh d = true := by
          rw [hnd] at hall
          simp only [List.all_cons, Bool.and_eq_true] at hall
          exact hall.1
        have hdm : ¬ d = '-' := by
          intro hcc
          rw [hcc] at hd
          exact absurd hd (by decide)
        rw [List.cons_append]
        simp only [intTok, if_neg hdm, ← List.cons_append, htw, hdw]
        rw [if_neg (by simp)]
        simp only [hval, hcast]

theorem natAll_natDigits (n : Nat) : natAll (natDigits n) = some (n : Int) := by
  obtain ⟨hne, hall, hval⟩ := natDigits_spec n
  simp only [natAll, if_pos (And.intro hne hall), hval]

theorem decCore_natDigits (n : Nat) :
    decCore (natDigits n) = some ((n : Rat), []) := by
  obtain ⟨hne, hall, hval⟩ := natDigits_spec n
  have htw := takeWhile_all_eq _ _ hall
  have hdw := dropWhile_all_eq _ _ hall
  simp only [decCore, htw, hdw, if_neg hne, hval]

theorem decTok_renderIntChars (i : Int) :
    decTok (renderIntChars i) = some ((i : Rat), []) := by
  obtain ⟨hne, hall, _hval⟩ := natDigits_spec i.natAbs
  unfold renderIntChars
  split
  · rename_i hneg
    have h1 : (i.natAbs : Int) = -i := by omega
    have hcast : ((i.natAbs : Rat)) = -(i : Rat) := by
      rw [Int.cast_natAbs, abs_of_neg hneg, Int.cast_neg]
    simp only [decTok, if_pos rfl, decCore_natDigits, hcast, if_true]
    simp
  · rename_i hpos
    have h1 : (i.natAbs : Int) = i := by omega
    have hcast : ((i.natAbs : Rat)) = (i : Rat) := by
      rw [Int.cast_natAbs, abs_of_nonneg (show (0 : Int) ≤ i by omega)]
    cases hnd : natDigits i.natAbs with
    | nil => exact absurd hnd hne
    | cons d ds =>
        have hd : isDigitCh d = true := by
          rw [hnd] at hall
          simp only [List.all_cons, Bool.and_eq_true] at hall
          exact hall.1
        have hdm : ¬ d = '-' := by
          intro hcc
          rw [hcc] at hd
          exact absurd hd (by decide)
        simp only [decTok, if_neg hdm, ← hnd, decCore_natDigits, hcast]

/-- The per-literal expansions of `String.data`, used to evaluate the
embedded rules on partially-symbolic lines. -/
theorem data_audiosync_status : "AUDIOSYNC STATUS".data = ['A', 'U', 'D', 'I', 'O', 'S', 'Y', 'N', 'C', ' ', 'S', 'T', 'A', 'T', 'U', 'S'] := rfl
theorem data_audiosync : "AUDIOSYNC".data = ['A', 'U', 'D', 'I', 'O', 'S', 'Y', 'N', 'C'] := rfl
theorem data_bypass : "BYPASS".data = ['B', 'Y', 'P', 'A', 'S', 'S'] := rfl
theorem data_bye : "BYE".data = ['B', 'Y', 'E'] := rfl
theorem data_current_preset : "CURRENT_PRESET".data = ['C', 'U', 'R', 'R', 'E', 'N', 'T', '_', 'P', 'R', 'E', 'S', 'E', 'T'] := rfl
theorem data_meta_preset_loaded : "META_PRESET_LOADED".data = ['M', 'E', 'T', 'A', '_', 'P', 'R', 'E', 'S', 'E', 'T', '_', 'L', 'O', 'A', 'D', 'E', 'D'] := rfl
theorem data_current_profile : "CURRENT_PROFILE".data = ['C', 'U', 'R', 'R', 'E', 'N', 'T', '_', 'P', 'R', 'O', 'F', 'I', 'L', 'E'] := rfl
theorem data_current_source_format : "CURRENT_SOURCE_FORMAT_NAME".data = ['C', 'U', 'R', 'R', 'E', 'N', 'T', '_', 'S', 'O', 'U', 'R', 'C', 'E', '_', 'F', 'O', 'R', 'M', 'A', 'T', '_', 'N', 'A', 'M', 'E'] := rfl
theorem data_decoder_nonaudio : "DECODER NONAUDIO ".data = ['D', 'E', 'C', 'O', 'D', 'E', 'R', ' ', 'N', 'O', 'N', 'A', 'U', 'D', 'I', 'O', ' '] := rfl
theorem data_playable : " PLAYABLE ".data = [' ', 'P', 'L', 'A', 'Y', 'A', 'B', 'L', 'E', ' '] := rfl
theorem data_decoder_mid : " DECODER ".data = [' ', 'D', 'E', 'C', 'O', 'D', 'E', 'R', ' '] := rfl
theorem data_upmixer_mid : " UPMIXER ".data = [' ', 'U', 'P', 'M', 'I', 'X', 'E', 'R', ' '] := rfl
theorem data_dim : "DIM".data = ['D', 'I', 'M'] := rfl
theorem data_error_colon : "ERROR: ".data = ['E', 'R', 'R', 'O', 'R', ':', ' '] := rfl
theorem data_label : "LABEL".data = ['L', 'A', 'B', 'E', 'L'] := rfl
theorem data_labels_clear : "LABELS_CLEAR".data = ['L', 'A', 'B', 'E', 'L', 'S', '_', 'C', 'L', 'E', 'A', 'R'] := rfl
theorem data_mute : "MUTE".data = ['M', 'U', 'T', 'E'] := rfl
theorem data_ok : "OK".data = ['O', 'K'] := rfl
theorem data_profile : "PROFILE".data = ['P', 'R', 'O', 'F', 'I', 'L', 'E'] := rfl
theorem data_profiles_clear : "PROFILES_CLEAR".data = ['P', 'R', 'O', 'F', 'I', 'L', 'E', 'S', '_', 'C', 'L', 'E', 'A', 'R'] := rfl
theorem data_speaker_info : "SPEAKER_INFO".data = ['S', 'P', 'E', 'A', 'K', 'E', 'R', '_', 'I', 'N', 'F', 'O'] := rfl
theorem data_srate : "SRATE".data = ['S', 'R', 'A', 'T', 'E'] := rfl
theorem data_start_running : "START_RUNNING".data = ['S', 'T', 'A', 'R', 'T', '_', 'R', 'U', 'N', 'N', 'I', 'N', 'G'] := rfl
theorem data_volume : "VOLUME".data = ['V', 'O', 'L', 'U', 'M', 'E'] := rfl
theorem data_welcome : "Welcome on Trinnov Optimizer (Version ".data = ['W', 'e', 'l', 'c', 'o', 'm', 'e', ' ', 'o', 'n', ' ', 'T', 'r', 'i', 'n', 'n', 'o', 'v', ' ', 'O', 'p', 't', 'i', 'm', 'i', 'z', 'e', 'r', ' ', '(', 'V', 'e', 'r', 's', 'i', 'o', 'n', ' '] := rfl
theorem data_id_mid : " ID ".data = [' ', 'I', 'D', ' '] := rfl
theorem data_colon_space : ": ".data = [':', ' '] := rfl
theorem data_current_preset_sp : "CURRENT_PRESET ".data = ['C', 'U', 'R', 'R', 'E', 'N', 'T', '_', 'P', 'R', 'E', 'S', 'E', 'T', ' '] := rfl
theorem data_meta_preset_loaded_sp : "META_PRESET_LOADED ".data = ['M', 'E', 'T', 'A', '_', 'P', 'R', 'E', 'S', 'E', 'T', '_', 'L', 'O', 'A', 'D', 'E', 'D', ' '] := rfl
theorem data_current_profile_sp : "CURRENT_PROFILE ".data = ['C', 'U', 'R', 'R', 'E', 'N', 'T', '_', 'P', 'R', 'O', 'F', 'I', 'L', 'E', ' '] := rfl
theorem data_profile_sp : "PROFILE ".data = ['P', 'R', 'O', 'F', 'I', 'L', 'E', ' '] := rfl
theorem data_label_sp : "LABEL ".data = ['L', 'A', 'B', 'E', 'L', ' '] := rfl
theorem data_srate_sp : "SRATE ".data = ['S', 'R', 'A', 'T', 'E', ' '] := rfl
theorem data_volume_sp : "VOLUME ".data = ['V', 'O', 'L', 'U', 'M', 'E', ' '] := rfl
theorem data_dim_sp : "DIM ".data = ['D', 'I', 'M', ' '] := rfl

theorem anch_eq_core (core : List Char → Option Message) (l : List Char)
    (h : ¬l.getLast? = some '\n') : anch core l = core l := by
  unfold anch
  cases hc : core l <;> simp [hc, h]

theorem parse_current_preset_line (i : Int) :
    parse_message ("CURRENT_PRESET " ++ renderInt i) = .currentPreset i := by
  have hdata : ("CURRENT_PRESET " ++ renderInt i).data
      = "CURRENT_PRESET ".data ++ renderIntChars i := by
    rw [String.data_append]
    rfl
  have hnl : ¬("CURRENT_PRESET ".data ++ renderIntChars i).getLast? = some '\n' := by
    apply getLast_ne_nl
    intro hm
    rcases List.mem_append.mp hm with h | h
    · revert h
      decide
    · exact renderIntChars_no_nl i h
  unfold parse_message
  rw [hdata]
  simp only [data_current_preset_sp, List.cons_append] at hnl ⊢
  simp only [PARSER_RULES, firstMatch, anch_eq_core _ _ hnl]
  simp [coreAudiosyncStatus, coreAudiosync, coreBypass, coreBye,
    coreCurrentPreset, data_audiosync_status, data_audiosync, data_bypass,
    data_bye, data_current_preset, litP, spaceThen, isSpaceCh,
    intAll_renderIntChars]

theorem parse_meta_preset_loaded_line (i : Int) :
    parse_message ("META_PRESET_LOADED " ++ renderInt i) = .currentPreset i := by
  have hdata : ("META_PRESET_LOADED " ++ renderInt i).data
      = "META_PRESET_LOADED ".data ++ renderIntChars i := by
    rw [String.data_append]
    rfl
  have hnl : ¬("META_PRESET_LOADED ".data ++ renderIntChars i).getLast? = some '\n' := by
    apply getLast_ne_nl
    intro hm
    rcases List.mem_append.mp hm with h | h
    · revert h
      decide
    · exact renderIntChars_no_nl i h
  unfold parse_message
  rw [hdata]
  simp only [data_meta_preset_loaded_sp, List.cons_append] at hnl ⊢
  simp only [PARSER_RULES, firstMatch, anch_eq_core _ _ hnl]
  simp [coreAudiosyncStatus, coreAudiosync, coreBypass, coreBye, coreCurrentPreset, coreMetaPresetLoaded, data_audiosync_status, data_audiosync, data_bypass, data_bye, data_current_preset, data_meta_preset_loaded, data_current_profile, data_current_source_format, data_decoder_nonaudio, data_dim, data_error_colon, data_label, data_labels_clear, data_mute, data_ok, data_profile, data_profiles_clear, data_speaker_info, data_srate, data_start_running, data_volume, data_welcome, data_playable, data_decoder_mid, data_upmixer_mid, data_id_mid, data_colon_space, litP, spaceThen, isSpaceCh, intAll_renderIntChars]

theorem parse_current_profile_line (i : Int) :
    parse_message ("CURRENT_PROFILE " ++ renderInt i) = .currentSource i := by
  have hdata : ("CURRENT_PROFILE " ++ renderInt i).data
      = "CURRENT_PROFILE ".data ++ renderIntChars i := by
    rw [String.data_append]
    rfl
  have hnl : ¬("CURRENT_PROFILE ".data ++ renderIntChars i).getLast? = some '\n' := by
    apply getLast_ne_nl
    intro hm
    rcases List.mem_append.mp hm with h | h
    · revert h
      decide
    · exact renderIntChars_no_nl i h
  unfold parse_message
  rw [hdata]
  simp only [data_current_profile_sp, List.cons_append] at hnl ⊢
  simp only [PARSER_RULES, firstMatch, anch_eq_core _ _ hnl]
  simp [coreAudiosyncStatus, coreAudiosync, coreBypass, coreBye, coreCurrentPreset, coreMetaPresetLoaded, coreCurrentProfile, data_audiosync_status, data_audiosync, data_bypass, data_bye, data_current_preset, data_meta_preset_loaded, data_current_profile, data_current_source_format, data_decoder_nonaudio, data_dim, data_error_colon, data_label, data_labels_clear, data_mute, data_ok, data_profile, data_profiles_clear, data_speaker_info, data_srate, data_start_running, data_volume, data_welcome, data_playable, data_decoder_mid, data_upmixer_mid, data_id_mid, data_colon_space, litP, spaceThen, isSpaceCh, intAll_renderIntChars]

theorem parse_dim_line (i : Int) :
    parse_message ("DIM " ++ renderInt i) = .dim (decide ¬(i = 0)) := by
  have hdata : ("DIM " ++ renderInt i).data
      = "DIM ".data ++ renderIntChars i := by
    rw [String.data_append]
    rfl
  have hnl : ¬("DIM ".data ++ renderIntChars i).getLast? = some '\n' := by
    apply getLast_ne_nl
    intro hm
    rcases List.mem_append.mp hm with h | h
    · revert h
      decide
    · exact renderIntChars_no_nl i h
  unfold parse_message
  rw [hdata]
  simp only [data_dim_sp, List.cons_append] at hnl ⊢
  simp only [PARSER_RULES, firstMatch, anch_eq_core _ _ hnl]
  simp [coreAudiosyncStatus, coreAudiosync, coreBypass, coreBye, coreCurrentPreset, coreMetaPresetLoaded, coreCurrentProfile, coreCurrentSourceFormat, coreDecoder, coreDim, data_audiosync_status, data_audiosync, data_bypass, data_bye, data_current_preset, data_meta_preset_loaded, data_current_profile, data_current_source_format, data_decoder_nonaudio, data_dim, data_error_colon, data_label, data_labels_clear, data_mute, data_ok, data_profile, data_profiles_clear, data_speaker_info, data_srate, data_start_running, data_volume, data_welcome, data_playable, data_decoder_mid, data_upmixer_mid, data_id_mid, data_colon_space, litP, spaceThen, isSpaceCh, intAll_renderIntChars]

theorem parse_profile_index_line (i : Int) :
    parse_message ("PROFILE " ++ renderInt i) = .currentSource i := by
  have hdata : ("PROFILE " ++ renderInt i).data
      = "PROFILE ".data ++ renderIntChars i := by
    rw [String.data_append]
    rfl
  have hnl : ¬("PROFILE ".data ++ renderIntChars i).getLast? = some '\n' := by
    apply getLast_ne_nl
    intro hm
    rcases List.mem_append.mp hm with h | h
    · revert h
      decide
    · exact renderIntChars_no_nl i h
  unfold parse_message
  rw [hdata]
  simp only [data_profile_sp, List.cons_append] at hnl ⊢
  simp only [PARSER_RULES, firstMatch, anch_eq_core _ _ hnl]
  simp [coreAudiosyncStatus, coreAudiosync, coreBypass, coreBye, coreCurrentPreset, coreMetaPresetLoaded, coreCurrentProfile, coreCurrentSourceFormat, coreDecoder, coreDim, coreError, corePreset, corePresetsClear, coreMute, coreOk, coreProfileIndex, data_audiosync_status, data_audiosync, data_bypass, data_bye, data_current_preset, data_meta_preset_loaded, data_current_profile, data_current_source_format, data_decoder_nonaudio, data_dim, data_error_colon, data_label, data_labels_clear, data_mute, data_ok, data_profile, data_profiles_clear, data_speaker_info, data_srate, data_start_running, data_volume, data_welcome, data_playable, data_decoder_mid, data_upmixer_mid, data_id_mid, data_colon_space, litP, spaceThen, isSpaceCh, intAll_renderIntChars]

theorem parse_volume_int_line (i : Int) :
    parse_message ("VOLUME " ++ renderInt i) = .volume (i : Rat) := by
  have hdata : ("VOLUME " ++ renderInt i).data
      = "VOLUME ".data ++ renderIntChars i := by
    rw [String.data_append]
    rfl
  have hnl : ¬("VOLUME ".data ++ renderIntChars i).getLast? = some '\n' := by
    apply getLast_ne_nl
    intro hm
    rcases List.mem_append.mp hm with h | h
    · revert h
      decide
    · exact renderIntChars_no_nl i h
  unfold parse_message
  rw [hdata]
  simp only [data_volume_sp, List.cons_append] at hnl ⊢
  simp only [PARSER_RULES, firstMatch, anch_eq_core _ _ hnl]
  simp [coreAudiosyncStatus, coreAudiosync, coreBypass, coreBye, coreCurrentPreset, coreMetaPresetLoaded, coreCurrentProfile, coreCurrentSourceFormat, coreDecoder, coreDim, coreError, corePreset, corePresetsClear, coreMute, coreOk, coreProfileIndex, coreProfileEntry, coreProfilesClear, coreSpeakerInfo, coreSrate, coreStartRunning, coreVolume, data_audiosync_status, data_audiosync, data_bypass, data_bye, data_current_preset, data_meta_preset_loaded, data_current_profile, data_current_source_format, data_decoder_nonaudio, data_dim, data_error_colon, data_label, data_labels_clear, data_mute, data_ok, data_profile, data_profiles_clear, data_speaker_info, data_srate, data_start_running, data_volume, data_welcome, data_playable, data_decoder_mid, data_upmixer_mid, data_id_mid, data_colon_space, litP, spaceThen, isSpaceCh, decTok_renderIntChars]

theorem data_renderInt (i : Int) : (renderInt i).data = renderIntChars i := rfl

theorem data_renderNat (n : Nat) : (renderNat n).data = natDigits n := rfl

theorem string_mk_data (s : String) : String.mk s.data = s := rfl

theorem dotAll_no_nl (l : List Char) (h : '\n' ∉ l) : dotAll l = some ⟨l⟩ := by
  unfold dotAll
  rw [if_pos]
  exact List.all_eq_true.mpr fun c hc => by
    simp only [decide_eq_true_eq]
    intro hcc
    exact h (hcc ▸ hc)

theorem intAll_renderIntChars_append (i : Int) (c : Char) (t : List Char)
    (hc : isDigitCh c = false) :
    intAll (renderIntChars i ++ c :: t) = none := by
  obtain ⟨hne, hall, hval⟩ := natDigits_spec i.natAbs
  have hfalse : ((natDigits i.natAbs ++ c :: t).all isDigitCh) = false := by
    simp [List.all_append, hc]
  unfold renderIntChars
  split
  · simp [List.cons_append, intAll, hfalse]
  · cases hnd : natDigits i.natAbs with
    | nil => exact absurd hnd hne
    | cons d ds =>
        rw [hnd] at hall hfalse
        have hd : isDigitCh d = true := by
          simp only [List.all_cons, Bool.and_eq_true] at hall
          exact hall.1
        have hdm : ¬ d = '-' := by
          intro hcc
          rw [hcc] at hd
          exact absurd hd (by decide)
        rw [List.cons_append]
        simp only [intAll, if_neg hdm, ← List.cons_append]
        simp [hfalse]
        intro _ _ hcc
        rw [hcc] at hc
        cases hc

theorem parse_srate_line (n : Nat) :
    parse_message ("SRATE " ++ renderNat n) = .samplingRate (n : Int) := by
  have hdata : ("SRATE " ++ renderNat n).data = "SRATE ".data ++ natDigits n := by
    rw [String.data_append]
    rfl
  have hnl : ¬("SRATE ".data ++ natDigits n).getLast? = some '\n' := by
    apply getLast_ne_nl
    intro hm
    rcases List.mem_append.mp hm with h | h
    · revert h
      decide
    · exact no_nl_of_all_digits _ (natDigits_spec n).2.1 h
  unfold parse_message
  rw [hdata]
  simp only [data_srate_sp, List.cons_append] at hnl ⊢
  simp only [PARSER_RULES, firstMatch, anch_eq_core _ _ hnl]
  simp [coreAudiosyncStatus, coreAudiosync, coreBypass, coreBye,
    coreCurrentPreset, coreMetaPresetLoaded, coreCurrentProfile,
    coreCurrentSourceFormat, coreDecoder, coreDim, coreError, corePreset,
    corePresetsClear, coreMute, coreOk, coreProfileIndex, coreProfileEntry,
    coreProfilesClear, coreSpeakerInfo, coreSrate,
    data_audiosync_status, data_audiosync, data_bypass, data_bye,
    data_current_preset, data_meta_preset_loaded, data_current_profile,
    data_current_source_format, data_decoder_nonaudio, data_dim,
    data_error_colon, data_label, data_labels_clear, data_mute, data_ok,
    data_profile, data_profiles_clear, data_speaker_info, data_srate,
    litP, spaceThen, isSpaceCh, natAll_natDigits]

theorem parse_label_line (i : Int) (name : String) (hname : '\n' ∉ name.data) :
    parse_message ("LABEL " ++ renderInt i ++ ": " ++ name) = .preset i name := by
  have hdata : ("LABEL " ++ renderInt i ++ ": " ++ name).data
      = "LABEL ".data ++ (renderIntChars i ++ ':' :: ' ' :: name.data) := by
    simp [String.data_append, data_colon_space, data_renderInt]
  have hnl : ¬("LABEL ".data ++ (renderIntChars i ++ ':' :: ' ' :: name.data)).getLast?
      = some '\n' := by
    apply getLast_ne_nl
    intro hm
    rcases List.mem_append.mp hm with h | h
    · revert h
      decide
    · rcases List.mem_append.mp h with h2 | h2
      · exact renderIntChars_no_nl i h2
      · rcases h2 with _ | ⟨-, h3⟩
        rcases h3 with _ | ⟨-, h4⟩
        exact hname h4
  unfold parse_message
  rw [hdata]
  simp only [data_label_sp, List.cons_append] at hnl ⊢
  simp only [PARSER_RULES, firstMatch, anch_eq_core _ _ hnl]
  simp [coreAudiosyncStatus, coreAudiosync, coreBypass, coreBye,
    coreCurrentPreset, coreMetaPresetLoaded, coreCurrentProfile,
    coreCurrentSourceFormat, coreDecoder, coreDim, coreError, corePreset,
    data_audiosync_status, data_audiosync, data_bypass, data_bye,
    data_current_preset, data_meta_preset_loaded, data_current_profile,
    data_current_source_format, data_decoder_nonaudio, data_dim,
    data_error_colon, data_label, data_colon_space,
    litP, spaceThen, isSpaceCh,
    intTok_renderIntChars_append _ _ _ (by decide : isDigitCh ':' = false),
    dotAll_no_nl _ hname, string_mk_data]

theorem parse_profile_entry_line (i : Int) (name : String)
    (hname : '\n' ∉ name.data) :
    parse_message ("PROFILE " ++ renderInt i ++ ": " ++ name)
      = .source i name ("profile") := by
  have hdata : ("PROFILE " ++ renderInt i ++ ": " ++ name).data
      = "PROFILE ".data ++ (renderIntChars i ++ ':' :: ' ' :: name.data) := by
    simp [String.data_append, data_colon_space, data_renderInt]
  have hnl : ¬("PROFILE ".data ++ (renderIntChars i ++ ':' :: ' ' :: name.data)).getLast?
      = some '\n' := by
    apply getLast_ne_nl
    intro hm
    rcases List.mem_append.mp hm with h | h
    · revert h
      decide
    · rcases List.mem_append.mp h with h2 | h2
      · exact renderIntChars_no_nl i h2
      · rcases h2 with _ | ⟨-, h3⟩
        rcases h3 with _ | ⟨-, h4⟩
        exact hname h4
  unfold parse_message
  rw [hdata]
  simp only [data_profile_sp, List.cons_append] at hnl ⊢
  simp only [PARSER_RULES, firstMatch, anch_eq_core _ _ hnl]
  simp [coreAudiosyncStatus, coreAudiosync, coreBypass, coreBye,
    coreCurrentPreset, coreMetaPresetLoaded, coreCurrentProfile,
    coreCurrentSourceFormat, coreDecoder, coreDim, coreError, corePreset,
    corePresetsClear, coreMute, coreOk, coreProfileIndex, coreProfileEntry,
    data_audiosync_status, data_audiosync, data_bypass, data_bye,
    data_current_preset, data_meta_preset_loaded, data_current_profile,
    data_current_source_format, data_decoder_nonaudio, data_dim,
    data_error_colon, data_label, data_labels_clear, data_mute, data_ok,
    data_profile, data_colon_space,
    litP, spaceThen, isSpaceCh,
    intAll_renderIntChars_append _ _ _ (by decide : isDigitCh ':' = false),
    intTok_renderIntChars_append _ _ _ (by decide : isDigitCh ':' = false),
    dotAll_no_nl _ hname, string_mk_data]

theorem coreAudiosyncStatus_no_unknown (l : List Char) (m : Message)
    (h : coreAudiosyncStatus l = some m) : ∀ r, ¬m = .unknown r := by
  intro r hr
  subst hr
  unfold coreAudiosyncStatus at h
  repeat' split at h
  all_goals simp_all [Option.map_eq_some']

theorem coreAudiosync_no_unknown (l : List Char) (m : Message)
    (h : coreAudiosync l = some m) : ∀ r, ¬m = .unknown r := by
  intro r hr
  subst hr
  unfold coreAudiosync at h
  repeat' split at h
  all_goals simp_all [Option.map_eq_some']

theorem coreBypass_no_unknown (l : List Char) (m : Message)
    (h : coreBypass l = some m) : ∀ r, ¬m = .unknown r := by
  intro r hr
  subst hr
  unfold coreBypass at h
  repeat' split at h
  all_goals simp_all [Option.map_eq_some']

theorem coreBye_no_unknown (l : List Char) (m : Message)
    (h : coreBye l = some m) : ∀ r, ¬m = .unknown r := by
  intro r hr
  subst hr
  unfold coreBye at h
  repeat' split at h
  all_goals simp_all [Option.map_eq_some']

theorem coreCurrentPreset_no_unknown (l : List Char) (m : Message)
    (h : coreCurrentPreset l = some m) : ∀ r, ¬m = .unknown r := by
  intro r hr
  subst hr
  unfold coreCurrentPreset at h
  repeat' split at h
  all_goals simp_all [Option.map_eq_some']

theorem coreMetaPresetLoaded_no_unknown (l : List Char) (m : Message)
    (h : coreMetaPresetLoaded l = some m) : ∀ r, ¬m = .unknown r := by
  intro r hr
  subst hr
  unfold coreMetaPresetLoaded at h
  repeat' split at h
  all_goals simp_all [Option.map_eq_some']

theorem coreCurrentProfile_no_unknown (l : List Char) (m : Message)
    (h : coreCurrentProfile l = some m) : ∀ r, ¬m = .unknown r := by
  intro r hr
  subst hr
  unfold coreCurrentProfile at h
  repeat' split at h
  all_goals simp_all [Option.map_eq_some']

theorem coreCurrentSourceFormat_no_unknown (l : List Char) (m : Message)
    (h : coreCurrentSourceFormat l = some m) : ∀ r, ¬m = .unknown r := by
  intro r hr
  subst hr
  unfold coreCurrentSourceFormat at h
  repeat' split at h
  all_goals simp_all [Option.map_eq_some']

theorem coreDecoder_no_unknown (l : List Char) (m : Message)
    (h : coreDecoder l = some m) : ∀ r, ¬m = .unknown r := by
  intro r hr
  subst hr
  unfold coreDecoder at h
  repeat' split at h
  all_goals simp_all [Option.map_eq_some']

theorem coreDim_no_unknown (l : List Char) (m : Message)
    (h : coreDim l = some m) : ∀ r, ¬m = .unknown r := by
  intro r hr
  subst hr
  unfold coreDim at h
  repeat' split at h
  all_goals simp_all [Option.map_eq_some']

theorem coreError_no_unknown (l : List Char) (m : Message)
    (h : coreError l = some m) : ∀ r, ¬m = .unknown r := by
  intro r hr
  subst hr
  unfold coreError at h
  repeat' split at h
  all_goals simp_all [Option.map_eq_some']

theorem corePreset_no_unknown (l : List Char) (m : Message)
    (h : corePreset l = some m) : ∀ r, ¬m = .unknown r := by
  intro r hr
  subst hr
  unfold corePreset at h
  repeat' split at h
  all_goals simp_all [Option.map_eq_some']

theorem corePresetsClear_no_unknown (l : List Char) (m : Message)
    (h : corePresetsClear l = some m) : ∀ r, ¬m = .unknown r := by
  intro r hr
  subst hr
  unfold corePresetsClear at h
  repeat' split at h
  all_goals simp_all [Option.map_eq_some']

theorem coreMute_no_unknown (l : List Char) (m : Message)
    (h : coreMute l = some m) : ∀ r, ¬m = .unknown r := by
  intro r hr
  subst hr
  unfold coreMute at h
  repeat' split at h
  all_goals simp_all [Option.map_eq_some']

theorem coreOk_no_unknown (l : List Char) (m : Message)
    (h : coreOk l = some m) : ∀ r, ¬m = .unknown r := by
  intro r hr
  subst hr
  unfold coreOk at h
  repeat' split at h
  all_goals simp_all [Option.map_eq_some']

theorem coreProfileIndex_no_unknown (l : List Char) (m : Message)
    (h : coreProfileIndex l = some m) : ∀ r, ¬m = .unknown r := by
  intro r hr
  subst hr
  unfold coreProfileIndex at h
  repeat' split at h
  all_goals simp_all [Option.map_eq_some']

theorem coreProfileEntry_no_unknown (l : List Char) (m : Message)
    (h : coreProfileEntry l = some m) : ∀ r, ¬m = .unknown r := by
  intro r hr
  subst hr
  unfold coreProfileEntry at h
  repeat' split at h
  all_goals simp_all [Option.map_eq_some']

theorem coreProfilesClear_no_unknown (l : List Char) (m : Message)
    (h : coreProfilesClear l = some m) : ∀ r, ¬m = .unknown r := by
  intro r hr
  subst hr
  unfold coreProfilesClear at h
  repeat' split at h
  all_goals simp_all [Option.map_eq_some']

theorem coreSpeakerInfo_no_unknown (l : List Char) (m : Message)
    (h : coreSpeakerInfo l = some m) : ∀ r, ¬m = .unknown r := by
  intro r hr
  subst hr
  unfold coreSpeakerInfo at h
  repeat' split at h
  all_goals simp_all [Option.map_eq_some']

theorem coreSrate_no_unknown (l : List Char) (m : Message)
    (h : coreSrate l = some m) : ∀ r, ¬m = .unknown r := by
  intro r hr
  subst hr
  unfold coreSrate at h
  repeat' split at h
  all_goals simp_all [Option.map_eq_some']

theorem coreStartRunning_no_unknown (l : List Char) (m : Message)
    (h : coreStartRunning l = some m) : ∀ r, ¬m = .unknown r := by
  intro r hr
  subst hr
  unfold coreStartRunning at h
  repeat' split at h
  all_goals simp_all [Option.map_eq_some']

theorem coreVolume_no_unknown (l : List Char) (m : Message)
    (h : coreVolume l = some m) : ∀ r, ¬m = .unknown r := by
  intro r hr
  subst hr
  unfold coreVolume at h
  repeat' split at h
  all_goals simp_all [Option.map_eq_some']

theorem coreWelcome_no_unknown (l : List Char) (m : Message)
    (h : coreWelcome l = some m) : ∀ r, ¬m = .unknown r := by
  intro r hr
  subst hr
  unfold coreWelcome at h
  repeat' split at h
  all_goals simp_all [Option.map_eq_some']

theorem anch_no_unknown (core : List Char → Option Message)
    (hcore : ∀ l m, core l = some m → ∀ r, ¬m = .unknown r)
    (l : List Char) (m : Message) (h : anch core l = some m) :
    ∀ r, ¬m = .unknown r := by
  unfold anch at h
  split at h
  · rename_i m2 hm2
    cases h
    exact hcore _ _ hm2
  · split at h
    · exact hcore _ _ h
    · cases h

theorem firstMatch_mem :
    ∀ (rs : List (List Char → Option Message)) (l : List Char) (m : Message),
      firstMatch rs l = some m → ∃ f ∈ rs, f l = some m
  | [], _, _, h => by cases h
  | r :: rs, l, m, h => by
      unfold firstMatch at h
      cases hr : r l with
      | some m2 =>
          rw [hr] at h
          cases h
          exact ⟨r, by simp, hr⟩
      | none =>
          rw [hr] at h
          obtain ⟨f, hf, hfl⟩ := firstMatch_mem rs l m h
          exact ⟨f, by simp [hf], hfl⟩

theorem PARSER_RULES_no_unknown (f : List Char → Option Message)
    (hf : f ∈ PARSER_RULES) (l : List Char) (m : Message)
    (h : f l = some m) : ∀ r, ¬m = .unknown r := by
  simp only [PARSER_RULES, List.mem_cons, List.not_mem_nil, or_false] at hf
  rcases hf with rfl | rfl | rfl | rfl | rfl | rfl | rfl | rfl | rfl | rfl | rfl | rfl | rfl | rfl | rfl | rfl | rfl | rfl | rfl | rfl | rfl | rfl | rfl
  · exact anch_no_unknown _ coreAudiosyncStatus_no_unknown l m h
  · exact anch_no_unknown _ coreAudiosync_no_unknown l m h
  · exact anch_no_unknown _ coreBypass_no_unknown l m h
  · exact anch_no_unknown _ coreBye_no_unknown l m h
  · exact anch_no_unknown _ coreCurrentPreset_no_unknown l m h
  · exact anch_no_unknown _ coreMetaPresetLoaded_no_unknown l m h
  · exact anch_no_unknown _ coreCurrentProfile_no_unknown l m h
  · exact anch_no_unknown _ coreCurrentSourceFormat_no_unknown l m h
  · exact anch_no_unknown _ coreDecoder_no_unknown l m h
  · exact anch_no_unknown _ coreDim_no_unknown l m h
  · exact anch_no_unknown _ coreError_no_unknown l m h
  · exact anch_no_unknown _ corePreset_no_unknown l m h
  · exact anch_no_unknown _ corePresetsClear_no_unknown l m h
  · exact anch_no_unknown _ coreMute_no_unknown l m h
  · exact anch_no_unknown _ coreOk_no_unknown l m h
  · exact anch_no_unknown _ coreProfileIndex_no_unknown l m h
  · exact anch_no_unknown _ coreProfileEntry_no_unknown l m h
  · exact anch_no_unknown _ coreProfilesClear_no_unknown l m h
  · exact anch_no_unknown _ coreSpeakerInfo_no_unknown l m h
  · exact anch_no_unknown _ coreSrate_no_unknown l m h
  · exact anch_no_unknown _ coreStartRunning_no_unknown l m h
  · exact anch_no_unknown _ coreVolume_no_unknown l m h
  · exact anch_no_unknown _ coreWelcome_no_unknown l m h

theorem parse_message_unknown_faithful (line r : String)
    (h : parse_message line = .unknown r) : r = line := by
  unfold parse_message at h
  cases hf : firstMatch PARSER_RULES line.data with
  | none =>
      rw [hf] at h
      simp only [Option.getD] at h
      exact (Message.unknown.injEq _ _ ▸ h.symm ▸ rfl)
  | some m =>
      rw [hf] at h
      simp only [Option.getD] at h
      obtain ⟨f, hfmem, hfl⟩ := firstMatch_mem _ _ _ hf
      exact absurd h (PARSER_RULES_no_unknown f hfmem _ _ hfl r)

theorem parse_volume_frac_example :
    parse_message ("VOLUME -18.5") = .volume (-37 / 2 : Rat) := by
  have h : parse_message ("VOLUME -18.5")
      = .volume (-((digitsToNat ['1', '8'] : Rat) + fracVal ['5'])) := rfl
  rw [h]
  congr 1
  have h18 : digitsToNat ['1', '8'] = 18 := by decide
  have h5 : digitsToNat ['5'] = 5 := by decide
  rw [fracVal, h18, h5]
  norm_num

theorem parse_speaker_info_example :
    parse_message ("SPEAKER_INFO 0 1.36485 102.091 -43.3817")
      = .speakerInfo 0 (27297 / 20000 : Rat) (102091 / 1000 : Rat)
          (-433817 / 10000 : Rat) := by
  have h : parse_message ("SPEAKER_INFO 0 1.36485 102.091 -43.3817")
      = .speakerInfo ((digitsToNat ['0'] : Nat) : Int)
          ((digitsToNat ['1'] : Rat) + fracVal ['3', '6', '4', '8', '5'])
          ((digitsToNat ['1', '0', '2'] : Rat) + fracVal ['0', '9', '1'])
          (-((digitsToNat ['4', '3'] : Rat) + fracVal ['3', '8', '1', '7'])) := rfl
  rw [h]
  have e1 : digitsToNat ['0'] = 0 := by decide
  have e2 : digitsToNat ['1'] = 1 := by decide
  have e3 : digitsToNat ['3', '6', '4', '8', '5'] = 36485 := by decide
  have e4 : digitsToNat ['1', '0', '2'] = 102 := by decide
  have e5 : digitsToNat ['0', '9', '1'] = 91 := by decide
  have e6 : digitsToNat ['4', '3'] = 43 := by decide
  have e7 : digitsToNat ['3', '8', '1', '7'] = 3817 := by decide
  rw [fracVal, fracVal, fracVal, e1, e2, e3, e4, e5, e6, e7]
  norm_num

/-- Claim C2 counterexample:  The line `DIM 2` matches none of the §6 wire
shapes (`DIM <0|1>`), so by the claim it should parse to the Unknown
variant; instead the DIM rule accepts any optionally-signed integer and
`parse_message` returns a `DimMessage` with state true. -/
theorem claim_C2_parse_counterexample :
    dimWireShapeSpec ("DIM 2") = false
    ∧ parse_message ("DIM 2") = .dim true
    ∧ ¬parse_message ("DIM 2") = .unknown ("DIM 2") := by
  refine ⟨by decide, by decide, by decide⟩

/-- Claim C2 amended:  `parse_message` is total and pure; a line matching
one of the parser's rules (which extend the §6 shapes: the DIM rule
accepts any optionally-signed integer with `bool(int(.))` semantics, the
DECODER rule any non-negative integers for its two flags, and every rule
tolerates one trailing newline) yields the corresponding typed variant
with correctly-typed fields — indices as possibly-negative integers,
volume and speaker coordinates as optionally-signed, optionally-fractional
decimals — and any other line yields the Unknown variant whose raw field
equals the input line verbatim. -/
theorem claim_C2_parse_message_amended :
    (∀ line r : String, parse_message line = .unknown r → r = line)
    ∧ (∀ i : Int,
        parse_message ("CURRENT_PRESET " ++ renderInt i) = .currentPreset i
        ∧ parse_message ("META_PRESET_LOADED " ++ renderInt i) = .currentPreset i
        ∧ parse_message ("CURRENT_PROFILE " ++ renderInt i) = .currentSource i
        ∧ parse_message ("PROFILE " ++ renderInt i) = .currentSource i
        ∧ parse_message ("DIM " ++ renderInt i) = .dim (decide ¬(i = 0))
        ∧ parse_message ("VOLUME " ++ renderInt i) = .volume (i : Rat))
    ∧ (∀ (i : Int) (name : String), '\n' ∉ name.data →
        parse_message ("LABEL " ++ renderInt i ++ ": " ++ name) = .preset i name
        ∧ parse_message ("PROFILE " ++ renderInt i ++ ": " ++ name)
            = .source i name ("profile"))
    ∧ (∀ n : Nat, parse_message ("SRATE " ++ renderNat n) = .samplingRate (n : Int))
    ∧ parse_message ("VOLUME -18.5") = .volume (-37 / 2 : Rat)
    ∧ parse_message ("SPEAKER_INFO 0 1.36485 102.091 -43.3817")
        = .speakerInfo 0 (27297 / 20000 : Rat) (102091 / 1000 : Rat)
            (-433817 / 10000 : Rat)
    ∧ parse_message ("Welcome on Trinnov Optimizer (Version 4.3.2rc1, ID 10485761)")
        = .welcome ("4.3.2rc1") "10485761"
    ∧ parse_message ("AUDIOSYNC STATUS 1") = .audiosyncStatus true
    ∧ parse_message ("AUDIOSYNC slave") = .audiosync ("slave")
    ∧ parse_message ("BYPASS 1") = .bypass true
    ∧ parse_message ("BYE") = .bye
    ∧ parse_message ("MUTE 0") = .mute false
    ∧ parse_message ("OK") = .ok
    ∧ parse_message ("OK\n") = .ok
    ∧ parse_message ("LABELS_CLEAR") = .presetsClear
    ∧ parse_message ("PROFILES_CLEAR") = .sourcesClear
    ∧ parse_message ("START_RUNNING") = .startRunning
    ∧ parse_message ("ERROR: invalid command") = .error ("invalid command")
    ∧ parse_message ("CURRENT_SOURCE_FORMAT_NAME Dolby Atmos")
        = .currentSourceFormat ("Dolby Atmos")
    ∧ parse_message ("DECODER NONAUDIO 0 PLAYABLE 1 DECODER ATMOS TrueHD UPMIXER dolby")
        = .decoder false true ("Dolby Atmos/Dolby TrueHD") "dolby"
    ∧ parse_message ("") = .unknown ("")
    ∧ parse_message (" ") = .unknown (" ")
    ∧ parse_message ("%%%") = .unknown ("%%%")
    ∧ parse_message ("\t") = .unknown ("\t")
    ∧ parse_message ("CURRENT_PROFILE nope") = .unknown ("CURRENT_PROFILE nope")
    ∧ parse_message ("LABEL:") = .unknown ("LABEL:") := by
  refine ⟨parse_message_unknown_faithful,
    fun i => ⟨parse_current_preset_line i, parse_meta_preset_loaded_line i,
      parse_current_profile_line i, parse_profile_index_line i,
      parse_dim_line i, parse_volume_int_line i⟩,
    fun i name h => ⟨parse_label_line i name h, parse_profile_entry_line i name h⟩,
    parse_srate_line, parse_volume_frac_example, parse_speaker_info_example,
    ?rest⟩
  decide

/-- Closed witness for `claim_C2_parse_message_amended`: the generative
clauses applied at concrete inputs. -/
theorem claim_C2_parse_message_amended_witness :
    parse_message ("CURRENT_PRESET -1") = .currentPreset (-1)
    ∧ parse_message ("LABEL 3: Cinema") = .preset 3 ("Cinema") := by
  constructor
  · have h := (claim_C2_parse_message_amended.2.1 (-1)).1
    simpa [renderInt, renderIntChars, natDigits, natDigitsFuel] using h
  · have h :=
      (claim_C2_parse_message_amended.2.2.1 3 ("Cinema") (by decide)).1
    simpa [renderInt, renderIntChars, natDigits, natDigitsFuel] using h

/-- Claim C5 amended:  The normalizer maps a `MetaPresetLoadedMessage` per
profile exactly as the claim says, but `parse_message` turns the wire line
`META_PRESET_LOADED <int>` into a `CurrentPresetMessage`, so the
parse-then-normalize pipeline yields a set-current-preset-index event
under both profiles. -/
theorem claim_C5_profile_quirk_amended :
    ∀ i : Int,
      normalize_message (.metaPresetLoaded i) PROFILE_ALTITUDE_CI
          = [.setCurrentSource i]
      ∧ normalize_message (.metaPresetLoaded i) PROFILE_DEFAULT
          = [.setCurrentPreset i]
      ∧ ∀ p : String,
          normalize_message (parse_message ("META_PRESET_LOADED " ++ renderInt i)) p
            = [.setCurrentPreset i] := by
  intro i
  refine ⟨rfl, ?_, ?_⟩
  · simp [normalize_message, PROFILE_DEFAULT, PROFILE_ALTITUDE_CI]
  · intro p
    rw [parse_meta_preset_loaded_line i]
    rfl

theorem charLower_hex (c : Char) :
    isHexDigitCh (charLower c) = isHexDigitCh c := by
  unfold charLower
  split <;> rfl

theorem charLower_sep (c : Char) :
    isMacSepCh (charLower c) = isMacSepCh c := by
  unfold charLower
  split <;> rfl

theorem charLower_eq_nl (c : Char) : charLower c = '\n' ↔ c = '\n' := by
  unfold charLower
  split <;> simp_all

theorem macGroupsTail_map : ∀ (n : Nat) (l : List Char),
    macGroupsTail n (l.map charLower) = macGroupsTail n l
  | 0, [] => rfl
  | 0, _ :: _ => rfl
  | _ + 1, [] => rfl
  | _ + 1, [_] => rfl
  | _ + 1, [_, _] => rfl
  | n + 1, s :: a :: b :: rest => by
      simp only [List.map_cons, macGroupsTail, charLower_sep, charLower_hex,
        macGroupsTail_map n rest]

theorem macCore_map (l : List Char) :
    macCore (l.map charLower) = macCore l := by
  match l with
  | [] => rfl
  | [_] => rfl
  | a :: b :: rest =>
      simp only [List.map_cons, macCore, charLower_hex, macGroupsTail_map]

theorem macRegexMatch_map (l : List Char) :
    macRegexMatch (l.map charLower) = macRegexMatch l := by
  unfold macRegexMatch
  rw [macCore_map, List.getLast?_map, ← List.map_dropLast, macCore_map]
  congr 1
  congr 1
  cases hl : l.getLast? with
  | none => rfl
  | some c =>
      by_cases hc : c = '\n'
      · subst hc
        simp [show charLower '\n' = '\n' from rfl]
      · have hcl : ¬charLower c = '\n' := fun h => hc ((charLower_eq_nl c).mp h)
        simp [hc, hcl]

theorem specMacShape_eq_macCore (s : String) :
    specMacShape s = macCore s.data := by
  obtain ⟨l⟩ := s
  show (match l with
    | [a1, b1, s1, a2, b2, s2, a3, b3, s3, a4, b4, s4, a5, b5, s5, a6, b6] =>
        isHexDigitCh a1 && isHexDigitCh b1 && isMacSepCh s1 &&
        isHexDigitCh a2 && isHexDigitCh b2 && isMacSepCh s2 &&
        isHexDigitCh a3 && isHexDigitCh b3 && isMacSepCh s3 &&
        isHexDigitCh a4 && isHexDigitCh b4 && isMacSepCh s4 &&
        isHexDigitCh a5 && isHexDigitCh b5 && isMacSepCh s5 &&
        isHexDigitCh a6 && isHexDigitCh b6
    | _ => false) = macCore l
  rcases l with _ | ⟨a1, _ | ⟨b1, _ | ⟨s1, _ | ⟨a2, _ | ⟨b2, _ | ⟨s2, _ | ⟨a3, _ | ⟨b3, _ | ⟨s3, _ | ⟨a4, _ | ⟨b4, _ | ⟨s4, _ | ⟨a5, _ | ⟨b5, _ | ⟨s5, _ | ⟨a6, _ | ⟨b6, _ | ⟨x, t⟩⟩⟩⟩⟩⟩⟩⟩⟩⟩⟩⟩⟩⟩⟩⟩⟩⟩
  all_goals simp [macCore, macGroupsTail, Bool.and_assoc]

/-- Claim C10 counterexample:  `validate_mac` accepts
`"aa:bb:cc:dd:ee:ff\n"` — a string with a trailing newline, which is not
of the claim's six-two-hex-digit-group format — because Python's `$`
also matches just before one trailing newline. -/
theorem claim_C10_mac_counterexample :
    validate_mac ("aa:bb:cc:dd:ee:ff\n") = .ok true
    ∧ specMacShape ("aa:bb:cc:dd:ee:ff\n") = false := by
  refine ⟨rfl, by decide⟩

/-- Claim C10 amended:  `validate_mac` validates synchronously with no
I/O: it returns true exactly for the strings consisting of six
two-hex-digit groups separated by `':'` or `'-'` (hex digits in either
letter case), optionally followed by one trailing newline, and raises
`MalformedMacAddressError` (carrying the offending string) for every
other string; no vendor-OUI restriction is applied. -/
theorem claim_C10_validate_mac_amended :
    ∀ s : String,
      (validate_mac s = .ok true
        ↔ (specMacShape s
            || (s.data.getLast? = some '\n'
                && specMacShape (String.mk s.data.dropLast))) = true)
      ∧ (validate_mac s = .ok true
        ∨ validate_mac s = .error (.malformedMacAddress s)) := by
  intro s
  have hmm : macRegexMatch (s.data.map charLower)
      = (specMacShape s
          || (s.data.getLast? = some '\n'
              && specMacShape (String.mk s.data.dropLast))) := by
    rw [macRegexMatch_map, macRegexMatch, specMacShape_eq_macCore,
      specMacShape_eq_macCore]
  constructor
  · unfold validate_mac
    rw [hmm]
    split
    · rename_i hcond
      simp [hcond]
    · rename_i hcond
      simp only [Bool.not_eq_true] at hcond
      simp [hcond]
  · unfold validate_mac
    split
    · exact Or.inl rfl
    · exact Or.inr rfl

end Trinnov
